import Mathlib

/-!
Verification of the decision-task handling core of the cadence workflow
service, shallowly embedded from `service/history/decisionTaskHandler.go`.

The handler itself (`handleDecisions`, `handleDecision`, the per-kind
`handleDecision*` functions, `retryCronContinueAsNew`, `validateDecisionAttr`,
`handlerFailDecision`) is translated directly from the Go source.  The
mutable-state object, the attribute validator, the blob-size checker and the
domain cache are external collaborators whose implementations are not part of
the source tree; they are modelled from the specification's contracts
(each such definition carries a doc comment starting `Modelled from the
spec:`).  The validator and the domain cache are kept fully abstract
(arbitrary function parameters), exactly as the handler consumes them.
-/

deriving instance DecidableEq for Except

namespace Cadence

/-- Payloads (Go `[]byte`) are modelled as lists of bytes; only their length
is inspected by the core (the blob-size checker). -/
abbrev Payload := List Nat

/-- Errors flowing through the handler, per spec section 7: `BadRequest`
(validator / state-mutator rejections) and `InternalService` (everything the
handler surfaces to the caller for retry). -/
inductive Err where
  | badRequest (msg : String)
  | internalService (msg : String)
  deriving Repr, DecidableEq

/-- The `workflow.DecisionTaskFailedCause` enum values used by the handler. -/
inductive DecisionTaskFailedCause where
  | unhandledDecision
  | badScheduleActivityAttributes
  | badRequestCancelActivityAttributes
  | badStartTimerAttributes
  | badCancelTimerAttributes
  | badCompleteWorkflowExecutionAttributes
  | badFailWorkflowExecutionAttributes
  | badCancelWorkflowExecutionAttributes
  | badRecordMarkerAttributes
  | badContinueAsNewAttributes
  | badStartChildExecutionAttributes
  | badRequestCancelExternalWorkflowExecutionAttributes
  | badSignalWorkflowExecutionAttributes
  | scheduleActivityDuplicateID
  | startTimerDuplicateID
  deriving Repr, DecidableEq

/-- The `workflow.ContinueAsNewInitiator` enum. -/
inductive ContinueAsNewInitiator where
  | decider
  | retryPolicy
  | cronSchedule
  deriving Repr, DecidableEq

/-- Target of an external signal (`workflow.WorkflowExecution`). -/
structure WorkflowExecution where
  workflowId : String
  runId : String
  deriving Repr, DecidableEq

structure ScheduleActivityTaskDecisionAttributes where
  activityId : String
  activityType : String
  domain : String
  taskList : String
  input : Payload
  scheduleToCloseTimeoutSeconds : Option Nat
  scheduleToStartTimeoutSeconds : Option Nat
  startToCloseTimeoutSeconds : Option Nat
  deriving Repr, DecidableEq

structure RequestCancelActivityTaskDecisionAttributes where
  activityId : String
  deriving Repr, DecidableEq

structure StartTimerDecisionAttributes where
  timerId : String
  startToFireTimeoutSeconds : Nat
  deriving Repr, DecidableEq

structure CancelTimerDecisionAttributes where
  timerId : String
  deriving Repr, DecidableEq

structure CompleteWorkflowExecutionDecisionAttributes where
  result : Payload
  deriving Repr, DecidableEq

structure FailWorkflowExecutionDecisionAttributes where
  reason : Option String
  details : Payload
  deriving Repr, DecidableEq

structure CancelWorkflowExecutionDecisionAttributes where
  details : Payload
  deriving Repr, DecidableEq

structure RecordMarkerDecisionAttributes where
  markerName : String
  details : Payload
  deriving Repr, DecidableEq

structure RequestCancelExternalWorkflowExecutionDecisionAttributes where
  domain : String
  workflowId : String
  runId : String
  childWorkflowOnly : Bool
  deriving Repr, DecidableEq

structure SignalExternalWorkflowExecutionDecisionAttributes where
  domain : String
  execution : WorkflowExecution
  signalName : String
  input : Payload
  childWorkflowOnly : Bool
  deriving Repr, DecidableEq

structure StartChildWorkflowExecutionDecisionAttributes where
  domain : String
  workflowId : String
  workflowType : String
  taskList : String
  input : Payload
  deriving Repr, DecidableEq

/-- `workflow.ContinueAsNewWorkflowExecutionDecisionAttributes`: also the
record constructed by `retryCronContinueAsNew`.  The retry policy is carried
through verbatim by the handler and is modelled as an opaque string. -/
structure ContinueAsNewWorkflowExecutionDecisionAttributes where
  workflowType : String
  taskList : String
  retryPolicy : Option String
  input : Payload
  executionStartToCloseTimeoutSeconds : Option Nat
  taskStartToCloseTimeoutSeconds : Option Nat
  cronSchedule : Option String
  backoffStartIntervalInSeconds : Option Nat
  initiator : Option ContinueAsNewInitiator
  failureReason : Option String
  failureDetails : Payload
  lastCompletionResult : Payload
  deriving Repr, DecidableEq

/-- `workflow.WorkflowExecutionStartedEventAttributes`, the fields read by
`handleDecisionCompleteWorkflow`, `handleDecisionFailWorkflow` and
`retryCronContinueAsNew`. -/
structure WorkflowExecutionStartedEventAttributes where
  workflowType : String
  taskList : String
  retryPolicy : Option String
  input : Payload
  executionStartToCloseTimeoutSeconds : Option Nat
  taskStartToCloseTimeoutSeconds : Option Nat
  cronSchedule : Option String
  lastCompletionResult : Payload
  parentWorkflowDomain : Option String
  deriving Repr, DecidableEq

/-- Go getter `GetParentWorkflowDomain` (empty string when unset). -/
def WorkflowExecutionStartedEventAttributes.getParentWorkflowDomain
    (attr : WorkflowExecutionStartedEventAttributes) : String :=
  attr.parentWorkflowDomain.getD ""

/-- The decision union (`workflow.Decision` with its `DecisionType` tag).
`unknownDecision` stands for any tag outside the twelve known ones. -/
inductive Decision where
  | scheduleActivityTask (attr : ScheduleActivityTaskDecisionAttributes)
  | requestCancelActivityTask (attr : RequestCancelActivityTaskDecisionAttributes)
  | startTimer (attr : StartTimerDecisionAttributes)
  | cancelTimer (attr : CancelTimerDecisionAttributes)
  | completeWorkflowExecution (attr : CompleteWorkflowExecutionDecisionAttributes)
  | failWorkflowExecution (attr : FailWorkflowExecutionDecisionAttributes)
  | cancelWorkflowExecution (attr : CancelWorkflowExecutionDecisionAttributes)
  | recordMarker (attr : RecordMarkerDecisionAttributes)
  | continueAsNewWorkflowExecution (attr : ContinueAsNewWorkflowExecutionDecisionAttributes)
  | startChildWorkflowExecution (attr : StartChildWorkflowExecutionDecisionAttributes)
  | requestCancelExternalWorkflowExecution (attr : RequestCancelExternalWorkflowExecutionDecisionAttributes)
  | signalExternalWorkflowExecution (attr : SignalExternalWorkflowExecutionDecisionAttributes)
  | unknownDecision (decisionType : Nat)
  deriving Repr, DecidableEq

/-- History event attributes for the event kinds the handler can append.
Linkage fields that the handler only writes and the claims never read
(decision-task-completed event id and the like) are omitted. -/
inductive HistoryEventAttributes where
  | activityTaskScheduled (attr : ScheduleActivityTaskDecisionAttributes)
  | activityTaskCancelRequested (activityId : String) (identity : String)
  | activityTaskCanceled (scheduleID startedID latestCancelRequestedEventID : Nat)
      (details : String) (identity : String)
  | timerStarted (attr : StartTimerDecisionAttributes)
  | timerCanceled (timerId : String) (identity : String)
  | cancelTimerFailed (timerId : String) (identity : String)
  | requestCancelActivityTaskFailed (activityId : String) (cause : String)
  | workflowExecutionCompleted (result : Payload)
  | workflowExecutionFailed (reason : Option String) (details : Payload)
  | workflowExecutionCanceled (details : Payload)
  | markerRecorded (attr : RecordMarkerDecisionAttributes)
  | startChildWorkflowExecutionInitiated (requestID : String)
      (attr : StartChildWorkflowExecutionDecisionAttributes)
  | requestCancelExternalWorkflowExecutionInitiated (requestID : String)
      (attr : RequestCancelExternalWorkflowExecutionDecisionAttributes)
  | signalExternalWorkflowExecutionInitiated (requestID : String)
      (attr : SignalExternalWorkflowExecutionDecisionAttributes)
  | workflowExecutionContinuedAsNew (attr : ContinueAsNewWorkflowExecutionDecisionAttributes)
  | workflowExecutionTerminated (reason : String) (details : String)
  deriving Repr, DecidableEq

/-- A history event: strictly monotonic id plus attributes (spec section 3). -/
structure HistoryEvent where
  eventID : Nat
  attrs : HistoryEventAttributes
  deriving Repr, DecidableEq

/-- The transfer-task union appended by the handler
(`persistence.ActivityTask`, `CancelExecutionTask`, `SignalExecutionTask`,
`StartChildExecutionTask`). -/
inductive TransferTask where
  | activityTask (domainID : String) (taskList : String) (scheduleID : Nat)
  | cancelExecutionTask (targetDomainID targetWorkflowID targetRunID : String)
      (targetChildWorkflowOnly : Bool) (initiatedID : Nat)
  | signalExecutionTask (targetDomainID targetWorkflowID targetRunID : String)
      (targetChildWorkflowOnly : Bool) (initiatedID : Nat)
  | startChildExecutionTask (targetDomainID targetWorkflowID : String) (initiatedID : Nat)
  deriving Repr, DecidableEq

/-- Timer-queue tasks.  `decisionTaskHandler.go` never appends to its
`timerTasks` accumulator (the timer builder is drained by the caller), but the
field exists on the handler and claims mention it. -/
inductive TimerTask where
  | userTimer (timerId : String)
  deriving Repr, DecidableEq

/-- Modelled from the spec: `common.EmptyEventID`, the sentinel stored in an
activity record's `startedID` while the activity is scheduled but not yet
started.  Real event ids start at 1, so 0 is free to serve as the sentinel. -/
def emptyEventID : Nat := 0

/-- Modelled from the spec: the termination reason used by the blob-size
checker (spec section 4.B / 7.3, `PayloadSizeExceedsLimit`). -/
def terminateReasonPayloadSizeExceedsLimit : String := "PayloadSizeExceedsLimit"

/-- Modelled from the spec: the `history` package constant cited in
`handleDecisionRequestCancelActivity` for a cancel of a not-yet-started
activity. -/
def activityCancellationMsgActivityNotStarted : String := "ACTIVITY_ID_NOT_STARTED"

/-- Modelled from the spec: the `history` package constant cited in
`handleDecisionRequestCancelActivity` when the activity id is unknown. -/
def activityCancellationMsgActivityIDUnknown : String := "ACTIVITY_ID_UNKNOWN"

/-- Modelled from the spec: the slice of `executionInfo` the handler reads
(spec section 3, "executionInfo: domain, workflow type, task list, timeouts,
parent identity (optional)"). -/
structure ExecutionInfo where
  domainID : String
  workflowID : String
  runID : String
  taskList : String
  workflowTimeout : Nat
  parentDomainID : String
  deriving Repr, DecidableEq

/-- Modelled from the spec: an activity record, `scheduleID` plus the
`startedID` consulted by `handleDecisionRequestCancelActivity`
(`emptyEventID` while not started). -/
structure ActivityInfo where
  scheduleID : Nat
  startedID : Nat
  deriving Repr, DecidableEq

/-- Modelled from the spec: one entry of the `bufferedEvents` queue (spec
section 3).  A buffered timer-fired event is distinguished because
`addTimerCanceledEvent` may consume it (spec section 4.D, CancelTimer). -/
inductive BufferedEvent where
  | timerFired (timerId : String)
  | other (externalEventTag : Nat)
  deriving Repr, DecidableEq

/-- Modelled from the spec: the mutable-state object, which lives outside the
core (spec sections 3 and 6).  Only the surface consumed by
`decisionTaskHandler.go` is represented: execution info, the running flag,
the event counter and appended events, activity records keyed by activity id,
the live user-timer set, the buffered-events queue, the start event, the
parent-execution flag, and the cron/retry backoff answers.  The two backoff
queries are modelled as data (an optional cron backoff and a finite
reason-to-backoff table) so that every operation stays executable;
`none` plays the role of `backoff.NoBackoff`. -/
structure MS where
  executionInfo : ExecutionInfo
  running : Bool
  nextEventID : Nat
  events : List HistoryEvent
  activityInfos : List (String × ActivityInfo)
  timerIDs : List String
  bufferedEvents : List BufferedEvent
  hasParentExecutionFlag : Bool
  startEvent : Option WorkflowExecutionStartedEventAttributes
  cronBackoffSeconds : Option Nat
  retryBackoffSeconds : List (String × Nat)
  deriving Repr, DecidableEq

/-- Modelled from the spec: `HasBufferedEvents` (spec section 6). -/
def MS.hasBufferedEvents (ms : MS) : Bool := !ms.bufferedEvents.isEmpty

/-- Modelled from the spec: `IsWorkflowExecutionRunning` (spec section 6). -/
def MS.isWorkflowExecutionRunning (ms : MS) : Bool := ms.running

/-- Modelled from the spec: `GetExecutionInfo` (spec section 6). -/
def MS.getExecutionInfo (ms : MS) : ExecutionInfo := ms.executionInfo

/-- Modelled from the spec: `HasParentExecution` (spec section 6). -/
def MS.hasParentExecution (ms : MS) : Bool := ms.hasParentExecutionFlag

/-- Modelled from the spec: `GetStartEvent` (spec section 6); the handler only
reads `WorkflowExecutionStartedEventAttributes` from the returned event. -/
def MS.getStartEvent (ms : MS) : Option WorkflowExecutionStartedEventAttributes :=
  ms.startEvent

/-- Modelled from the spec: `GetCronBackoffDuration`; `none` is
`backoff.NoBackoff`, `some n` a backoff of `n` seconds. -/
def MS.getCronBackoffDuration (ms : MS) : Option Nat := ms.cronBackoffSeconds

/-- Modelled from the spec: `GetRetryBackoffDuration(reason)`; `none` is
`backoff.NoBackoff`. -/
def MS.getRetryBackoffDuration (ms : MS) (reason : String) : Option Nat :=
  ms.retryBackoffSeconds.lookup reason

/-- Modelled from the spec: appending one history event, stamping the strictly
monotonic `eventID` from the state's event counter (spec section 3). -/
def MS.appendEvent (ms : MS) (attrs : HistoryEventAttributes) : HistoryEvent × MS :=
  let event : HistoryEvent := { eventID := ms.nextEventID, attrs := attrs }
  (event, { ms with nextEventID := ms.nextEventID + 1, events := ms.events ++ [event] })

/-- Modelled from the spec: `AddActivityTaskScheduledEvent`.  A duplicate
activity id is the BadRequest variant cited by `handleDecisionScheduleActivity`
(spec section 4.D, "On duplicate-id (BadRequest variant)"). -/
def MS.addActivityTaskScheduledEvent (ms : MS) (_decisionTaskCompletedID : Nat)
    (attr : ScheduleActivityTaskDecisionAttributes) :
    Except Err (HistoryEvent × ActivityInfo × MS) :=
  if (ms.activityInfos.lookup attr.activityId).isSome then
    .error (.badRequest "duplicate activity id")
  else
    let res := ms.appendEvent (.activityTaskScheduled attr)
    let ai : ActivityInfo := { scheduleID := res.1.eventID, startedID := emptyEventID }
    .ok (res.1, ai, { res.2 with activityInfos := res.2.activityInfos ++ [(attr.activityId, ai)] })

/-- Modelled from the spec: `AddActivityTaskCancelRequestedEvent`; an unknown
activity id is the BadRequest variant (spec section 4.D, RequestCancelActivity). -/
def MS.addActivityTaskCancelRequestedEvent (ms : MS) (_decisionTaskCompletedID : Nat)
    (activityId : String) (identity : String) :
    Except Err (HistoryEvent × ActivityInfo × MS) :=
  match ms.activityInfos.lookup activityId with
  | none => .error (.badRequest "unknown activity id")
  | some ai =>
    let res := ms.appendEvent (.activityTaskCancelRequested activityId identity)
    .ok (res.1, ai, res.2)

/-- Modelled from the spec: `AddActivityTaskCanceledEvent` (spec section 6). -/
def MS.addActivityTaskCanceledEvent (ms : MS)
    (scheduleID startedID latestCancelRequestedEventID : Nat)
    (details : String) (identity : String) : Except Err (HistoryEvent × MS) :=
  let res := ms.appendEvent
    (.activityTaskCanceled scheduleID startedID latestCancelRequestedEventID details identity)
  .ok res

/-- Modelled from the spec: `AddTimerStartedEvent`; a duplicate timer id is the
BadRequest variant (spec section 4.D, StartTimer).  The started timer's info is
returned as its timer id, the only part the handler's timer builder keeps. -/
def MS.addTimerStartedEvent (ms : MS) (_decisionTaskCompletedID : Nat)
    (attr : StartTimerDecisionAttributes) : Except Err (HistoryEvent × String × MS) :=
  if ms.timerIDs.contains attr.timerId then
    .error (.badRequest "duplicate timer id")
  else
    let res := ms.appendEvent (.timerStarted attr)
    .ok (res.1, attr.timerId, { res.2 with timerIDs := res.2.timerIDs ++ [attr.timerId] })

/-- Modelled from the spec: `AddTimerCanceledEvent`; an unknown timer id is the
BadRequest variant.  A successful cancellation removes the timer from the live
set and consumes any buffered fired event of that timer (spec section 4.D,
CancelTimer: "cancelling a timer may have consumed a buffered fire event"). -/
def MS.addTimerCanceledEvent (ms : MS) (_decisionTaskCompletedID : Nat)
    (attr : CancelTimerDecisionAttributes) (identity : String) :
    Except Err (HistoryEvent × MS) :=
  if ms.timerIDs.contains attr.timerId then
    let res := ms.appendEvent (.timerCanceled attr.timerId identity)
    .ok (res.1, { res.2 with
      timerIDs := res.2.timerIDs.filter (fun tid => tid ≠ attr.timerId),
      bufferedEvents := res.2.bufferedEvents.filter
        (fun b => match b with
          | .timerFired tid => tid ≠ attr.timerId
          | .other _ => true) })
  else
    .error (.badRequest "unknown timer id")

/-- Modelled from the spec: `AddCancelTimerFailedEvent` (spec section 4.D,
CancelTimer BadRequest branch). -/
def MS.addCancelTimerFailedEvent (ms : MS) (_decisionTaskCompletedID : Nat)
    (attr : CancelTimerDecisionAttributes) (identity : String) :
    Except Err (HistoryEvent × MS) :=
  .ok (ms.appendEvent (.cancelTimerFailed attr.timerId identity))

/-- Modelled from the spec: `AddRequestCancelActivityTaskFailedEvent` (spec
section 4.D, RequestCancelActivity BadRequest branch). -/
def MS.addRequestCancelActivityTaskFailedEvent (ms : MS) (_decisionTaskCompletedID : Nat)
    (activityId : String) (cause : String) : Except Err (HistoryEvent × MS) :=
  .ok (ms.appendEvent (.requestCancelActivityTaskFailed activityId cause))

/-- Modelled from the spec: `AddCompletedWorkflowEvent`; `isRunning` becomes
false on completion (spec section 3).  Calling it on a closed workflow is a
precondition violation, classified InternalService (spec section 7.2). -/
def MS.addCompletedWorkflowEvent (ms : MS) (_decisionTaskCompletedID : Nat)
    (attr : CompleteWorkflowExecutionDecisionAttributes) : Except Err (HistoryEvent × MS) :=
  if ms.running then
    let res := ms.appendEvent (.workflowExecutionCompleted attr.result)
    .ok (res.1, { res.2 with running := false })
  else .error (.internalService "workflow already closed")

/-- Modelled from the spec: `AddFailWorkflowEvent` (spec sections 3 and 6). -/
def MS.addFailWorkflowEvent (ms : MS) (_decisionTaskCompletedID : Nat)
    (attr : FailWorkflowExecutionDecisionAttributes) : Except Err (HistoryEvent × MS) :=
  if ms.running then
    let res := ms.appendEvent (.workflowExecutionFailed attr.reason attr.details)
    .ok (res.1, { res.2 with running := false })
  else .error (.internalService "workflow already closed")

/-- Modelled from the spec: `AddWorkflowExecutionCanceledEvent` (spec sections
3 and 6). -/
def MS.addWorkflowExecutionCanceledEvent (ms : MS) (_decisionTaskCompletedID : Nat)
    (attr : CancelWorkflowExecutionDecisionAttributes) : Except Err (HistoryEvent × MS) :=
  if ms.running then
    let res := ms.appendEvent (.workflowExecutionCanceled attr.details)
    .ok (res.1, { res.2 with running := false })
  else .error (.internalService "workflow already closed")

/-- Modelled from the spec: `AddRecordMarkerEvent` (spec section 4.D,
RecordMarker: emit `MarkerRecordedEvent`, no transfer task). -/
def MS.addRecordMarkerEvent (ms : MS) (_decisionTaskCompletedID : Nat)
    (attr : RecordMarkerDecisionAttributes) : Except Err (HistoryEvent × MS) :=
  .ok (ms.appendEvent (.markerRecorded attr))

/-- Modelled from the spec: `AddStartChildWorkflowExecutionInitiatedEvent`;
the fresh request id is stored in the initiated event (spec section 4.D). -/
def MS.addStartChildWorkflowExecutionInitiatedEvent (ms : MS)
    (_decisionTaskCompletedID : Nat) (requestID : String)
    (attr : StartChildWorkflowExecutionDecisionAttributes) :
    Except Err (HistoryEvent × MS) :=
  .ok (ms.appendEvent (.startChildWorkflowExecutionInitiated requestID attr))

/-- Modelled from the spec:
`AddRequestCancelExternalWorkflowExecutionInitiatedEvent` (spec section 4.D). -/
def MS.addRequestCancelExternalWorkflowExecutionInitiatedEvent (ms : MS)
    (_decisionTaskCompletedID : Nat) (cancelRequestID : String)
    (attr : RequestCancelExternalWorkflowExecutionDecisionAttributes) :
    Except Err (HistoryEvent × MS) :=
  .ok (ms.appendEvent (.requestCancelExternalWorkflowExecutionInitiated cancelRequestID attr))

/-- Modelled from the spec:
`AddSignalExternalWorkflowExecutionInitiatedEvent` (spec section 4.D). -/
def MS.addSignalExternalWorkflowExecutionInitiatedEvent (ms : MS)
    (_decisionTaskCompletedID : Nat) (signalRequestID : String)
    (attr : SignalExternalWorkflowExecutionDecisionAttributes) :
    Except Err (HistoryEvent × MS) :=
  .ok (ms.appendEvent (.signalExternalWorkflowExecutionInitiated signalRequestID attr))

/-- The state builder for the next run, as returned by `AddContinueAsNewEvent`
and stored by the handler as its continue-as-new verdict.  It records the
continue-as-new attributes and the parent domain name handed to the mutable
state (spec section 4.E). -/
structure ContinueAsNewStateBuilder where
  attrs : ContinueAsNewWorkflowExecutionDecisionAttributes
  parentDomainName : String
  deriving Repr, DecidableEq

/-- Modelled from the spec: `AddContinueAsNewEvent` (spec sections 4.E and 6):
appends the continued-as-new event, closes the current run and returns the
builder for the next run. -/
def MS.addContinueAsNewEvent (ms : MS) (_decisionTaskCompletedID : Nat)
    (parentDomainName : String)
    (attr : ContinueAsNewWorkflowExecutionDecisionAttributes) :
    Except Err (ContinueAsNewStateBuilder × MS) :=
  if ms.running then
    let res := ms.appendEvent (.workflowExecutionContinuedAsNew attr)
    .ok ({ attrs := attr, parentDomainName := parentDomainName },
         { res.2 with running := false })
  else .error (.internalService "workflow already closed")

/-- A domain-cache entry: the handler reads `GetInfo().ID` and
`GetInfo().Name`. -/
structure DomainEntry where
  id : String
  name : String
  deriving Repr, DecidableEq

/-- Modelled from the spec: the read-only domain cache (spec section 6),
as finite name-to-entry and id-to-entry tables; a missing key is the cache's
lookup error. -/
structure DomainCache where
  byName : List (String × DomainEntry)
  byID : List (String × DomainEntry)
  deriving Repr, DecidableEq

/-- Modelled from the spec: `GetDomain(name)` (spec section 6). -/
def DomainCache.getDomain (dc : DomainCache) (name : String) : Option DomainEntry :=
  dc.byName.lookup name

/-- Modelled from the spec: `GetDomainByID(id)` (spec section 6). -/
def DomainCache.getDomainByID (dc : DomainCache) (id : String) : Option DomainEntry :=
  dc.byID.lookup id

/-- Modelled from the spec: the attribute validator (`decisionAttrValidator`
lives outside the translated source).  The handler consumes it as twelve
injected functions, one per decision kind, each returning `none` for valid or
`some` error — BadRequest for a rejection, anything else propagating
unchanged (spec section 4.A).  Keeping the functions abstract lets the
theorems quantify over every validator behavior. -/
structure DecisionAttrValidator where
  validateActivityScheduleAttributes :
    String → String → ScheduleActivityTaskDecisionAttributes → Nat → Option Err
  validateActivityCancelAttributes :
    RequestCancelActivityTaskDecisionAttributes → Option Err
  validateTimerScheduleAttributes : StartTimerDecisionAttributes → Option Err
  validateTimerCancelAttributes : CancelTimerDecisionAttributes → Option Err
  validateCompleteWorkflowExecutionAttributes :
    CompleteWorkflowExecutionDecisionAttributes → Option Err
  validateFailWorkflowExecutionAttributes :
    FailWorkflowExecutionDecisionAttributes → Option Err
  validateCancelWorkflowExecutionAttributes :
    CancelWorkflowExecutionDecisionAttributes → Option Err
  validateRecordMarkerAttributes : RecordMarkerDecisionAttributes → Option Err
  validateContinueAsNewWorkflowExecutionAttributes :
    ContinueAsNewWorkflowExecutionDecisionAttributes → ExecutionInfo → Option Err
  validateStartChildExecutionAttributes :
    String → String → StartChildWorkflowExecutionDecisionAttributes → ExecutionInfo → Option Err
  validateCancelExternalWorkflowExecutionAttributes :
    String → String → RequestCancelExternalWorkflowExecutionDecisionAttributes → Option Err
  validateSignalExternalWorkflowExecutionAttributes :
    String → String → SignalExternalWorkflowExecutionDecisionAttributes → Option Err

/-- The handler's read-only collaborators: the abstract validator, the domain
cache, the per-domain blob-size error limit (consumed by the size-limit
checker) and the uuid source backing `uuid.New()` — an explicit stream so the
model is a pure function of its inputs while the freshness of `uuid.New()`
stays visible. -/
structure HandlerEnv where
  validator : DecisionAttrValidator
  domainCache : DomainCache
  blobSizeErrorLimit : Nat
  uuidGen : Nat → String

/-- The state of `decisionTaskHandlerImpl` (source lines 42-69).  The metrics
client is represented by the one counter the spec's claims mention
(`MultipleCompletionDecisionsCounter`); the logger is dropped; the timer
builder keeps the list of loaded user-timer ids; `uuidCounter` indexes the
uuid stream of the environment. -/
structure DecisionTaskHandler where
  identity : String
  decisionTaskCompletedID : Nat
  eventStoreVersion : Nat
  domainEntry : String
  hasUnhandledEventsBeforeDecisions : Bool
  timerBuilder : List String
  transferTasks : List TransferTask
  timerTasks : List TimerTask
  failDecision : Bool
  failDecisionCause : Option DecisionTaskFailedCause
  failMessage : Option String
  activityNotStartedCancelled : Bool
  continueAsNewBuilder : Option ContinueAsNewStateBuilder
  stopProcessing : Bool
  mutableState : MS
  multipleCompletionDecisionsCounter : Nat
  uuidCounter : Nat
  deriving Repr, DecidableEq

/-- The result of one handler call: Go's returned `error` (`none` = nil) next
to the mutated handler. -/
abbrev HandlerResult := Option Err × DecisionTaskHandler

/-- `newDecisionTaskHandler` (source lines 72-114): snapshots
`hasUnhandledEventsBeforeDecisions := mutableState.HasBufferedEvents()` and
clears the accumulators and flags. -/
def newDecisionTaskHandler (identity : String) (decisionTaskCompletedID : Nat)
    (eventStoreVersion : Nat) (domainEntry : String) (ms : MS) : DecisionTaskHandler :=
  { identity := identity
    decisionTaskCompletedID := decisionTaskCompletedID
    eventStoreVersion := eventStoreVersion
    domainEntry := domainEntry
    hasUnhandledEventsBeforeDecisions := ms.hasBufferedEvents
    timerBuilder := []
    transferTasks := []
    timerTasks := []
    failDecision := false
    failDecisionCause := none
    failMessage := none
    activityNotStartedCancelled := false
    continueAsNewBuilder := none
    stopProcessing := false
    mutableState := ms
    multipleCompletionDecisionsCounter := 0
    uuidCounter := 0 }

/-- `handlerFailDecision` (source lines 895-904): records the fail-decision
verdict — exactly the four fields — and returns nil. -/
def handlerFailDecision (handler : DecisionTaskHandler)
    (failedCause : DecisionTaskFailedCause) (failMessage : String) : HandlerResult :=
  (none, { handler with
    failDecision := true
    failDecisionCause := some failedCause
    failMessage := some failMessage
    stopProcessing := true })

/-- `validateDecisionAttr` (source lines 880-893): a BadRequest validation
error becomes a fail-decision verdict with the given cause and the error's
message; any other error propagates unchanged. -/
def validateDecisionAttr (handler : DecisionTaskHandler) (validationResult : Option Err)
    (failedCause : DecisionTaskFailedCause) : HandlerResult :=
  match validationResult with
  | some (.badRequest msg) => handlerFailDecision handler failedCause msg
  | some e => (some e, handler)
  | none => (none, handler)

/-- Modelled from the spec: `decisionBlobSizeChecker.failWorkflowIfBlobSizeExceedsLimit`
is not under the translated source.  Per spec section 4.B / 7.3: a payload
over the per-domain error limit terminates the workflow with a
`WorkflowExecutionTerminated` event carrying reason `PayloadSizeExceedsLimit`
(the checker's message string is kept as the event's details) and reports
`failWorkflow = true`; otherwise (ok or warn) the state is untouched. -/
def failWorkflowIfBlobSizeExceedsLimit (env : HandlerEnv) (ms : MS)
    (payload : Payload) (message : String) : Bool × MS :=
  if payload.length > env.blobSizeErrorLimit then
    let res := ms.appendEvent
      (.workflowExecutionTerminated terminateReasonPayloadSizeExceedsLimit message)
    (true, { res.2 with running := false })
  else (false, ms)

/-- The target-domain resolution step that `handleDecisionScheduleActivity`,
`handleDecisionRequestCancelExternalWorkflow`,
`handleDecisionStartChildWorkflow` and
`handleDecisionSignalExternalWorkflow` each perform inline (source lines
182-193, 566-577, 727-738, 787-798): the workflow's own domain is the
default; a named domain is resolved through the cache, a lookup failure
becoming an InternalService error with the handler-specific message. -/
def resolveTargetDomainID (env : HandlerEnv) (domainID : String) (attrDomain : String)
    (errMsg : String) : Except Err String :=
  if attrDomain = "" then Except.ok domainID
  else match env.domainCache.getDomain attrDomain with
    | some targetDomainEntry => Except.ok targetDomainEntry.id
    | none => Except.error (Err.internalService errMsg)

/-- `handleDecisionScheduleActivity` (source lines 173-234): resolve the
target domain (same-domain default), validate, blob-check the input, call
`AddActivityTaskScheduledEvent`; on success append one
`persistence.ActivityTask`; on duplicate-id BadRequest fail the decision with
`ScheduleActivityDuplicateID`. -/
def handleDecisionScheduleActivity (env : HandlerEnv)
    (attr : ScheduleActivityTaskDecisionAttributes)
    (handler : DecisionTaskHandler) : HandlerResult :=
  let executionInfo := handler.mutableState.getExecutionInfo
  let domainID := executionInfo.domainID
  match resolveTargetDomainID env domainID attr.domain
      ("Unable to schedule activity across domain " ++ attr.domain ++ ".") with
  | .error e => (some e, handler)
  | .ok targetDomainID =>
  match validateDecisionAttr handler
      (env.validator.validateActivityScheduleAttributes domainID targetDomainID attr
        executionInfo.workflowTimeout)
      .badScheduleActivityAttributes with
  | (some e, h2) => (some e, h2)
  | (none, h2) =>
  if h2.stopProcessing then (none, h2) else
  let checkRes := failWorkflowIfBlobSizeExceedsLimit env h2.mutableState attr.input
    "ScheduleActivityTaskDecisionAttributes.Input exceeds size limit."
  let h3 := { h2 with mutableState := checkRes.2 }
  if checkRes.1 then (none, { h3 with stopProcessing := true }) else
  match h3.mutableState.addActivityTaskScheduledEvent h3.decisionTaskCompletedID attr with
  | .ok (scheduleEvent, _ai, ms2) =>
    (none, { h3 with
      mutableState := ms2
      transferTasks := h3.transferTasks ++
        [TransferTask.activityTask targetDomainID attr.taskList scheduleEvent.eventID] })
  | .error (.badRequest _) =>
    handlerFailDecision h3 .scheduleActivityDuplicateID ""
  | .error e => (some e, h3)

/-- `handleDecisionRequestCancelActivity` (source lines 236-288): validate,
call `AddActivityTaskCancelRequestedEvent`; if the activity was scheduled but
not started, synchronously add `ActivityTaskCanceledEvent` and set
`activityNotStartedCancelled`; on BadRequest add
`RequestCancelActivityTaskFailedEvent` instead of failing the decision. -/
def handleDecisionRequestCancelActivity (env : HandlerEnv)
    (attr : RequestCancelActivityTaskDecisionAttributes)
    (handler : DecisionTaskHandler) : HandlerResult :=
  match validateDecisionAttr handler
      (env.validator.validateActivityCancelAttributes attr)
      .badRequestCancelActivityAttributes with
  | (some e, h2) => (some e, h2)
  | (none, h2) =>
  if h2.stopProcessing then (none, h2) else
  let activityID := attr.activityId
  match h2.mutableState.addActivityTaskCancelRequestedEvent h2.decisionTaskCompletedID
      activityID h2.identity with
  | .ok (actCancelReqEvent, ai, ms2) =>
    let h3 := { h2 with mutableState := ms2 }
    if ai.startedID = emptyEventID then
      match h3.mutableState.addActivityTaskCanceledEvent ai.scheduleID ai.startedID
          actCancelReqEvent.eventID activityCancellationMsgActivityNotStarted h3.identity with
      | .ok (_, ms3) =>
        (none, { h3 with mutableState := ms3, activityNotStartedCancelled := true })
      | .error e => (some e, h3)
    else (none, h3)
  | .error (.badRequest _) =>
    match h2.mutableState.addRequestCancelActivityTaskFailedEvent h2.decisionTaskCompletedID
        activityID activityCancellationMsgActivityIDUnknown with
    | .ok (_, ms2) => (none, { h2 with mutableState := ms2 })
    | .error e => (some e, h2)
  | .error e => (some e, h2)

/-- `handleDecisionStartTimer` (source lines 290-320): validate, call
`AddTimerStartedEvent`; on success add the timer to the timer builder; on
duplicate-id BadRequest fail the decision with `StartTimerDuplicateID`. -/
def handleDecisionStartTimer (env : HandlerEnv) (attr : StartTimerDecisionAttributes)
    (handler : DecisionTaskHandler) : HandlerResult :=
  match validateDecisionAttr handler
      (env.validator.validateTimerScheduleAttributes attr)
      .badStartTimerAttributes with
  | (some e, h2) => (some e, h2)
  | (none, h2) =>
  if h2.stopProcessing then (none, h2) else
  match h2.mutableState.addTimerStartedEvent h2.decisionTaskCompletedID attr with
  | .ok (_, ti, ms2) =>
    (none, { h2 with mutableState := ms2, timerBuilder := h2.timerBuilder ++ [ti] })
  | .error (.badRequest _) =>
    handlerFailDecision h2 .startTimerDuplicateID ""
  | .error e => (some e, h2)

/-- `retryCronContinueAsNew` (source lines 840-878): constructs the
continue-as-new attributes from the original start event's attributes —
workflow type, task list, retry policy, input, both timeouts and cron schedule
are inherited; the backoff interval, initiator, failure reason/details and
last completion result are stamped from the arguments — then delegates to
`AddContinueAsNewEvent` with the parent domain name taken from the start
attributes, storing the returned builder as the verdict. -/
def retryCronContinueAsNew (handler : DecisionTaskHandler)
    (attr : WorkflowExecutionStartedEventAttributes) (backoffInterval : Nat)
    (continueAsNewIter : Option ContinueAsNewInitiator) (failureReason : Option String)
    (failureDetails : Payload) (lastCompletionResult : Payload) : HandlerResult :=
  let continueAsNewAttributes : ContinueAsNewWorkflowExecutionDecisionAttributes := {
    workflowType := attr.workflowType
    taskList := attr.taskList
    retryPolicy := attr.retryPolicy
    input := attr.input
    executionStartToCloseTimeoutSeconds := attr.executionStartToCloseTimeoutSeconds
    taskStartToCloseTimeoutSeconds := attr.taskStartToCloseTimeoutSeconds
    cronSchedule := attr.cronSchedule
    backoffStartIntervalInSeconds := some backoffInterval
    initiator := continueAsNewIter
    failureReason := failureReason
    failureDetails := failureDetails
    lastCompletionResult := lastCompletionResult }
  match handler.mutableState.addContinueAsNewEvent handler.decisionTaskCompletedID
      attr.getParentWorkflowDomain continueAsNewAttributes with
  | .ok (newStateBuilder, ms2) =>
    (none, { handler with mutableState := ms2, continueAsNewBuilder := some newStateBuilder })
  | .error e => (some e, handler)

/-- `handleDecisionCompleteWorkflow` (source lines 322-391): unhandled-events
check, validate, blob-check the result, multiple-completion skip, then either
`AddCompletedWorkflowEvent` (no cron) or the retry/cron continue-as-new path
with initiator `CronSchedule` and last completion result `attr.result`. -/
def handleDecisionCompleteWorkflow (env : HandlerEnv)
    (attr : CompleteWorkflowExecutionDecisionAttributes)
    (handler : DecisionTaskHandler) : HandlerResult :=
  if handler.hasUnhandledEventsBeforeDecisions then
    handlerFailDecision handler .unhandledDecision ""
  else
  match validateDecisionAttr handler
      (env.validator.validateCompleteWorkflowExecutionAttributes attr)
      .badCompleteWorkflowExecutionAttributes with
  | (some e, h2) => (some e, h2)
  | (none, h2) =>
  if h2.stopProcessing then (none, h2) else
  let checkRes := failWorkflowIfBlobSizeExceedsLimit env h2.mutableState attr.result
    "CompleteWorkflowExecutionDecisionAttributes.Result exceeds size limit."
  let h3 := { h2 with mutableState := checkRes.2 }
  if checkRes.1 then (none, { h3 with stopProcessing := true }) else
  if !h3.mutableState.isWorkflowExecutionRunning then
    (none, { h3 with
      multipleCompletionDecisionsCounter := h3.multipleCompletionDecisionsCounter + 1 })
  else
  match h3.mutableState.getCronBackoffDuration with
  | none =>
    match h3.mutableState.addCompletedWorkflowEvent h3.decisionTaskCompletedID attr with
    | .ok (_, ms2) => (none, { h3 with mutableState := ms2 })
    | .error _ => (some (.internalService "Unable to add complete workflow event."), h3)
  | some cronBackoff =>
    match h3.mutableState.getStartEvent with
    | none => (some (.internalService "Failed to load start event."), h3)
    | some startAttributes =>
      retryCronContinueAsNew h3 startAttributes cronBackoff
        (some .cronSchedule) none [] attr.result

/-- `handleDecisionFailWorkflow` (source lines 393-470): unhandled-events
check, validate, blob-check the details, multiple-completion skip; then the
retry backoff is consulted first and only if it is `NoBackoff` the cron
backoff; if both are `NoBackoff` add `WorkflowFailedEvent`, otherwise take the
retry/cron continue-as-new path carrying the decision's reason and details and
the start event's `LastCompletionResult`. -/
def handleDecisionFailWorkflow (env : HandlerEnv)
    (attr : FailWorkflowExecutionDecisionAttributes)
    (handler : DecisionTaskHandler) : HandlerResult :=
  if handler.hasUnhandledEventsBeforeDecisions then
    handlerFailDecision handler .unhandledDecision ""
  else
  match validateDecisionAttr handler
      (env.validator.validateFailWorkflowExecutionAttributes attr)
      .badFailWorkflowExecutionAttributes with
  | (some e, h2) => (some e, h2)
  | (none, h2) =>
  if h2.stopProcessing then (none, h2) else
  let checkRes := failWorkflowIfBlobSizeExceedsLimit env h2.mutableState attr.details
    "FailWorkflowExecutionDecisionAttributes.Details exceeds size limit."
  let h3 := { h2 with mutableState := checkRes.2 }
  if checkRes.1 then (none, { h3 with stopProcessing := true }) else
  if !h3.mutableState.isWorkflowExecutionRunning then
    (none, { h3 with
      multipleCompletionDecisionsCounter := h3.multipleCompletionDecisionsCounter + 1 })
  else
  let firstBackoffInterval := h3.mutableState.getRetryBackoffDuration (attr.reason.getD "")
  let selected :=
    if firstBackoffInterval = none then
      (h3.mutableState.getCronBackoffDuration, ContinueAsNewInitiator.cronSchedule)
    else (firstBackoffInterval, ContinueAsNewInitiator.retryPolicy)
  match selected.1 with
  | none =>
    match h3.mutableState.addFailWorkflowEvent h3.decisionTaskCompletedID attr with
    | .ok (_, ms2) => (none, { h3 with mutableState := ms2 })
    | .error _ => (some (.internalService "Unable to add fail workflow event."), h3)
  | some backoffInterval =>
    match h3.mutableState.getStartEvent with
    | none => (some (.internalService "Failed to load start event."), h3)
    | some startAttributes =>
      retryCronContinueAsNew h3 startAttributes backoffInterval
        (some selected.2) attr.reason attr.details startAttributes.lastCompletionResult

/-- `handleDecisionCancelTimer` (source lines 472-517): validate, call
`AddTimerCanceledEvent`; on success rebuild the timer builder from the
current state and refresh `hasUnhandledEventsBeforeDecisions` from the
state's buffered-events flag (a cancelled timer may have consumed a buffered
fire event); on BadRequest add `CancelTimerFailedEvent` without failing the
decision. -/
def handleDecisionCancelTimer (env : HandlerEnv) (attr : CancelTimerDecisionAttributes)
    (handler : DecisionTaskHandler) : HandlerResult :=
  match validateDecisionAttr handler
      (env.validator.validateTimerCancelAttributes attr)
      .badCancelTimerAttributes with
  | (some e, h2) => (some e, h2)
  | (none, h2) =>
  if h2.stopProcessing then (none, h2) else
  match h2.mutableState.addTimerCanceledEvent h2.decisionTaskCompletedID attr h2.identity with
  | .ok (_, ms2) =>
    let h3 := { h2 with mutableState := ms2, timerBuilder := ms2.timerIDs }
    (none, { h3 with
      hasUnhandledEventsBeforeDecisions := h3.mutableState.hasBufferedEvents })
  | .error (.badRequest _) =>
    match h2.mutableState.addCancelTimerFailedEvent h2.decisionTaskCompletedID attr
        h2.identity with
    | .ok (_, ms2) => (none, { h2 with mutableState := ms2 })
    | .error e => (some e, h2)
  | .error e => (some e, h2)

/-- `handleDecisionCancelWorkflow` (source lines 519-555): unhandled-events
check, validate, multiple-completion skip, then
`AddWorkflowExecutionCanceledEvent`.  Note: unlike Complete and Fail, there is
no blob-size check of the details. -/
def handleDecisionCancelWorkflow (env : HandlerEnv)
    (attr : CancelWorkflowExecutionDecisionAttributes)
    (handler : DecisionTaskHandler) : HandlerResult :=
  if handler.hasUnhandledEventsBeforeDecisions then
    handlerFailDecision handler .unhandledDecision ""
  else
  match validateDecisionAttr handler
      (env.validator.validateCancelWorkflowExecutionAttributes attr)
      .badCancelWorkflowExecutionAttributes with
  | (some e, h2) => (some e, h2)
  | (none, h2) =>
  if h2.stopProcessing then (none, h2) else
  if !h2.mutableState.isWorkflowExecutionRunning then
    (none, { h2 with
      multipleCompletionDecisionsCounter := h2.multipleCompletionDecisionsCounter + 1 })
  else
  match h2.mutableState.addWorkflowExecutionCanceledEvent h2.decisionTaskCompletedID attr with
  | .ok (_, ms2) => (none, { h2 with mutableState := ms2 })
  | .error e => (some e, h2)

/-- `handleDecisionRequestCancelExternalWorkflow` (source lines 557-608):
resolve the target domain, validate, generate a fresh request id
(`uuid.New()`), add the initiated event (errors wrapped InternalService) and
append one `persistence.CancelExecutionTask`. -/
def handleDecisionRequestCancelExternalWorkflow (env : HandlerEnv)
    (attr : RequestCancelExternalWorkflowExecutionDecisionAttributes)
    (handler : DecisionTaskHandler) : HandlerResult :=
  let executionInfo := handler.mutableState.getExecutionInfo
  let domainID := executionInfo.domainID
  match resolveTargetDomainID env domainID attr.domain
      ("Unable to cancel workflow across domain: " ++ attr.domain ++ ".") with
  | .error e => (some e, handler)
  | .ok targetDomainID =>
  match validateDecisionAttr handler
      (env.validator.validateCancelExternalWorkflowExecutionAttributes domainID
        targetDomainID attr)
      .badRequestCancelExternalWorkflowExecutionAttributes with
  | (some e, h2) => (some e, h2)
  | (none, h2) =>
  if h2.stopProcessing then (none, h2) else
  let cancelRequestID := env.uuidGen h2.uuidCounter
  let h3 := { h2 with uuidCounter := h2.uuidCounter + 1 }
  match h3.mutableState.addRequestCancelExternalWorkflowExecutionInitiatedEvent
      h3.decisionTaskCompletedID cancelRequestID attr with
  | .ok (wfCancelReqEvent, ms2) =>
    (none, { h3 with
      mutableState := ms2
      transferTasks := h3.transferTasks ++
        [TransferTask.cancelExecutionTask targetDomainID attr.workflowId attr.runId
          attr.childWorkflowOnly wfCancelReqEvent.eventID] })
  | .error _ => (some (.internalService "Unable to add external cancel workflow request."), h3)

/-- `handleDecisionRecordMarker` (source lines 610-639): validate, blob-check
the details, then `AddRecordMarkerEvent`; no transfer task. -/
def handleDecisionRecordMarker (env : HandlerEnv) (attr : RecordMarkerDecisionAttributes)
    (handler : DecisionTaskHandler) : HandlerResult :=
  match validateDecisionAttr handler
      (env.validator.validateRecordMarkerAttributes attr)
      .badRecordMarkerAttributes with
  | (some e, h2) => (some e, h2)
  | (none, h2) =>
  if h2.stopProcessing then (none, h2) else
  let checkRes := failWorkflowIfBlobSizeExceedsLimit env h2.mutableState attr.details
    "RecordMarkerDecisionAttributes.Details exceeds size limit."
  let h3 := { h2 with mutableState := checkRes.2 }
  if checkRes.1 then (none, { h3 with stopProcessing := true }) else
  match h3.mutableState.addRecordMarkerEvent h3.decisionTaskCompletedID attr with
  | .ok (_, ms2) => (none, { h3 with mutableState := ms2 })
  | .error e => (some e, h3)

/-- `handleDecisionContinueAsNewWorkflow` (source lines 641-716):
unhandled-events check, validate against the execution info, blob-check the
input, multiple-completion skip, look up the parent domain name when a parent
execution exists, then `AddContinueAsNewEvent`, storing the returned builder
as the verdict. -/
def handleDecisionContinueAsNewWorkflow (env : HandlerEnv)
    (attr : ContinueAsNewWorkflowExecutionDecisionAttributes)
    (handler : DecisionTaskHandler) : HandlerResult :=
  if handler.hasUnhandledEventsBeforeDecisions then
    handlerFailDecision handler .unhandledDecision ""
  else
  let executionInfo := handler.mutableState.getExecutionInfo
  match validateDecisionAttr handler
      (env.validator.validateContinueAsNewWorkflowExecutionAttributes attr executionInfo)
      .badContinueAsNewAttributes with
  | (some e, h2) => (some e, h2)
  | (none, h2) =>
  if h2.stopProcessing then (none, h2) else
  let checkRes := failWorkflowIfBlobSizeExceedsLimit env h2.mutableState attr.input
    "ContinueAsNewWorkflowExecutionDecisionAttributes.Input exceeds size limit."
  let h3 := { h2 with mutableState := checkRes.2 }
  if checkRes.1 then (none, { h3 with stopProcessing := true }) else
  if !h3.mutableState.isWorkflowExecutionRunning then
    (none, { h3 with
      multipleCompletionDecisionsCounter := h3.multipleCompletionDecisionsCounter + 1 })
  else
  match (if h3.mutableState.hasParentExecution then
           match env.domainCache.getDomainByID executionInfo.parentDomainID with
           | some parentDomainEntry => Except.ok parentDomainEntry.name
           | none => Except.error (Err.internalService "parent domain lookup failed")
         else Except.ok "") with
  | .error e => (some e, h3)
  | .ok parentDomainName =>
  match h3.mutableState.addContinueAsNewEvent h3.decisionTaskCompletedID
      parentDomainName attr with
  | .ok (newStateBuilder, ms2) =>
    (none, { h3 with mutableState := ms2, continueAsNewBuilder := some newStateBuilder })
  | .error e => (some e, h3)

/-- `handleDecisionStartChildWorkflow` (source lines 718-776): resolve the
target domain, validate, blob-check the input, generate a fresh request id,
add the initiated event and append one `persistence.StartChildExecutionTask`. -/
def handleDecisionStartChildWorkflow (env : HandlerEnv)
    (attr : StartChildWorkflowExecutionDecisionAttributes)
    (handler : DecisionTaskHandler) : HandlerResult :=
  let executionInfo := handler.mutableState.getExecutionInfo
  let domainID := executionInfo.domainID
  match resolveTargetDomainID env domainID attr.domain
      ("Unable to schedule child execution across domain " ++ attr.domain ++ ".") with
  | .error e => (some e, handler)
  | .ok targetDomainID =>
  match validateDecisionAttr handler
      (env.validator.validateStartChildExecutionAttributes domainID targetDomainID attr
        executionInfo)
      .badStartChildExecutionAttributes with
  | (some e, h2) => (some e, h2)
  | (none, h2) =>
  if h2.stopProcessing then (none, h2) else
  let checkRes := failWorkflowIfBlobSizeExceedsLimit env h2.mutableState attr.input
    "StartChildWorkflowExecutionDecisionAttributes.Input exceeds size limit."
  let h3 := { h2 with mutableState := checkRes.2 }
  if checkRes.1 then (none, { h3 with stopProcessing := true }) else
  let requestID := env.uuidGen h3.uuidCounter
  let h4 := { h3 with uuidCounter := h3.uuidCounter + 1 }
  match h4.mutableState.addStartChildWorkflowExecutionInitiatedEvent
      h4.decisionTaskCompletedID requestID attr with
  | .ok (initiatedEvent, ms2) =>
    (none, { h4 with
      mutableState := ms2
      transferTasks := h4.transferTasks ++
        [TransferTask.startChildExecutionTask targetDomainID attr.workflowId
          initiatedEvent.eventID] })
  | .error e => (some e, h4)

/-- `handleDecisionSignalExternalWorkflow` (source lines 778-838): resolve the
target domain, validate, blob-check the input, generate a fresh request id
(for deduplication at the receiver), add the initiated event (errors wrapped
InternalService) and append one `persistence.SignalExecutionTask`. -/
def handleDecisionSignalExternalWorkflow (env : HandlerEnv)
    (attr : SignalExternalWorkflowExecutionDecisionAttributes)
    (handler : DecisionTaskHandler) : HandlerResult :=
  let executionInfo := handler.mutableState.getExecutionInfo
  let domainID := executionInfo.domainID
  match resolveTargetDomainID env domainID attr.domain
      ("Unable to signal workflow across domain: " ++ attr.domain ++ ".") with
  | .error e => (some e, handler)
  | .ok targetDomainID =>
  match validateDecisionAttr handler
      (env.validator.validateSignalExternalWorkflowExecutionAttributes domainID
        targetDomainID attr)
      .badSignalWorkflowExecutionAttributes with
  | (some e, h2) => (some e, h2)
  | (none, h2) =>
  if h2.stopProcessing then (none, h2) else
  let checkRes := failWorkflowIfBlobSizeExceedsLimit env h2.mutableState attr.input
    "SignalExternalWorkflowExecutionDecisionAttributes.Input exceeds size limit."
  let h3 := { h2 with mutableState := checkRes.2 }
  if checkRes.1 then (none, { h3 with stopProcessing := true }) else
  let signalRequestID := env.uuidGen h3.uuidCounter
  let h4 := { h3 with uuidCounter := h3.uuidCounter + 1 }
  match h4.mutableState.addSignalExternalWorkflowExecutionInitiatedEvent
      h4.decisionTaskCompletedID signalRequestID attr with
  | .ok (wfSignalReqEvent, ms2) =>
    (none, { h4 with
      mutableState := ms2
      transferTasks := h4.transferTasks ++
        [TransferTask.signalExecutionTask targetDomainID attr.execution.workflowId
          attr.execution.runId attr.childWorkflowOnly wfSignalReqEvent.eventID] })
  | .error _ => (some (.internalService "Unable to add external signal workflow request."), h4)

/-- `handleDecision` (source lines 130-171): dispatch on the decision type; an
unknown type returns a BadRequest error to the caller. -/
def handleDecision (env : HandlerEnv) (decision : Decision)
    (handler : DecisionTaskHandler) : HandlerResult :=
  match decision with
  | .scheduleActivityTask attr => handleDecisionScheduleActivity env attr handler
  | .completeWorkflowExecution attr => handleDecisionCompleteWorkflow env attr handler
  | .failWorkflowExecution attr => handleDecisionFailWorkflow env attr handler
  | .cancelWorkflowExecution attr => handleDecisionCancelWorkflow env attr handler
  | .startTimer attr => handleDecisionStartTimer env attr handler
  | .requestCancelActivityTask attr => handleDecisionRequestCancelActivity env attr handler
  | .cancelTimer attr => handleDecisionCancelTimer env attr handler
  | .recordMarker attr => handleDecisionRecordMarker env attr handler
  | .requestCancelExternalWorkflowExecution attr =>
    handleDecisionRequestCancelExternalWorkflow env attr handler
  | .signalExternalWorkflowExecution attr =>
    handleDecisionSignalExternalWorkflow env attr handler
  | .continueAsNewWorkflowExecution attr =>
    handleDecisionContinueAsNewWorkflow env attr handler
  | .startChildWorkflowExecution attr => handleDecisionStartChildWorkflow env attr handler
  | .unknownDecision decisionType =>
    (some (.badRequest ("Unknown decision type: " ++ toString decisionType)), handler)

/-- `handleDecisions` (source lines 116-128): apply the decisions in order,
stopping at the first non-nil error or as soon as `stopProcessing` is set. -/
def handleDecisions (env : HandlerEnv) (handler : DecisionTaskHandler) :
    List Decision → HandlerResult
  | [] => (none, handler)
  | decision :: rest =>
    match handleDecision env decision handler with
    | (some e, h2) => (some e, h2)
    | (none, h2) =>
      if h2.stopProcessing then (none, h2) else handleDecisions env h2 rest

/-- Weight of an event for the "completion-type events per batch" invariant:
1 for `WorkflowCompleted`, `WorkflowFailed`, `WorkflowCanceled` and
`WorkflowContinuedAsNew`, 0 otherwise. -/
def completionEventWeight : HistoryEventAttributes → Nat
  | .workflowExecutionCompleted _ => 1
  | .workflowExecutionFailed _ _ => 1
  | .workflowExecutionCanceled _ => 1
  | .workflowExecutionContinuedAsNew _ => 1
  | _ => 0

/-- Number of completion-type events in a history fragment. -/
def completionEventCount (events : List HistoryEvent) : Nat :=
  (events.map (fun e => completionEventWeight e.attrs)).sum

/-- The four terminal decision kinds (Complete / Fail / Cancel /
ContinueAsNew). -/
def Decision.isTerminal : Decision → Bool
  | .completeWorkflowExecution _ => true
  | .failWorkflowExecution _ => true
  | .cancelWorkflowExecution _ => true
  | .continueAsNewWorkflowExecution _ => true
  | _ => false

/-- Erase the freshly generated request id from an initiated event, leaving
every other part of the event intact. -/
def eraseRequestID (e : HistoryEvent) : HistoryEvent :=
  { e with attrs :=
      match e.attrs with
      | .startChildWorkflowExecutionInitiated _ attr =>
        .startChildWorkflowExecutionInitiated "" attr
      | .requestCancelExternalWorkflowExecutionInitiated _ attr =>
        .requestCancelExternalWorkflowExecutionInitiated "" attr
      | .signalExternalWorkflowExecutionInitiated _ attr =>
        .signalExternalWorkflowExecutionInitiated "" attr
      | a => a }

/-- A handler state with the request ids erased from its appended events —
the projection under which handler runs are compared for determinism. -/
def DecisionTaskHandler.scrubRequestIDs (h : DecisionTaskHandler) : DecisionTaskHandler :=
  { h with mutableState :=
      { h.mutableState with events := h.mutableState.events.map eraseRequestID } }

/-- A validator instance that accepts every attribute record — the concrete
validator used by witnesses and counterexamples. -/
def okValidator : DecisionAttrValidator :=
  { validateActivityScheduleAttributes := fun _ _ _ _ => none
    validateActivityCancelAttributes := fun _ => none
    validateTimerScheduleAttributes := fun _ => none
    validateTimerCancelAttributes := fun _ => none
    validateCompleteWorkflowExecutionAttributes := fun _ => none
    validateFailWorkflowExecutionAttributes := fun _ => none
    validateCancelWorkflowExecutionAttributes := fun _ => none
    validateRecordMarkerAttributes := fun _ => none
    validateContinueAsNewWorkflowExecutionAttributes := fun _ _ => none
    validateStartChildExecutionAttributes := fun _ _ _ _ => none
    validateCancelExternalWorkflowExecutionAttributes := fun _ _ _ => none
    validateSignalExternalWorkflowExecutionAttributes := fun _ _ _ => none }

/-- Concrete environment for witnesses: permissive validator, empty domain
cache, a 1024-byte blob error limit and a numbered uuid stream. -/
def testEnv : HandlerEnv :=
  { validator := okValidator
    domainCache := { byName := [], byID := [] }
    blobSizeErrorLimit := 1024
    uuidGen := fun n => "uuid-" ++ toString n }

/-- Concrete execution info for witnesses. -/
def testExecutionInfo : ExecutionInfo :=
  { domainID := "did-1"
    workflowID := "wf-1"
    runID := "run-1"
    taskList := "tl"
    workflowTimeout := 60
    parentDomainID := "" }

/-- Concrete start-event attributes for witnesses. -/
def testStartAttributes : WorkflowExecutionStartedEventAttributes :=
  { workflowType := "wt"
    taskList := "tl"
    retryPolicy := some "policy"
    input := [7]
    executionStartToCloseTimeoutSeconds := some 300
    taskStartToCloseTimeoutSeconds := some 10
    cronSchedule := none
    lastCompletionResult := [9, 9]
    parentWorkflowDomain := none }

/-- Concrete running mutable state for witnesses: no buffered events, no
activities, no timers, no cron and no retry backoff. -/
def testMS : MS :=
  { executionInfo := testExecutionInfo
    running := true
    nextEventID := 5
    events := []
    activityInfos := []
    timerIDs := []
    bufferedEvents := []
    hasParentExecutionFlag := false
    startEvent := some testStartAttributes
    cronBackoffSeconds := none
    retryBackoffSeconds := [] }

/-- Concrete fresh handler over `testMS`. -/
def testHandler : DecisionTaskHandler := newDecisionTaskHandler "worker-1" 4 0 "did-1" testMS

/-- Mutable state with a live timer whose fired event is sitting in the
buffered-events queue — the batch-start buffered state behind the C1
counterexample. -/
def c1MS : MS := { testMS with bufferedEvents := [.timerFired "t1"], timerIDs := ["t1"] }

/-- A batch whose CancelTimer consumes the buffered fire event before the
terminal CompleteWorkflow decision. -/
def c1Batch : List Decision :=
  [.cancelTimer { timerId := "t1" }, .completeWorkflowExecution { result := [1] }]

/-- The C1 counterexample run. -/
def c1Run : HandlerResult :=
  handleDecisions testEnv (newDecisionTaskHandler "worker-1" 4 0 "did-1" c1MS) c1Batch

/-- C1, counterexample: a batch that starts with buffered events
(`hasUnhandledEventsBeforeDecisions = true`) and contains a terminal decision
but is NOT rejected: the successful CancelTimer consumes the buffered
timer-fired event and refreshes the flag, after which CompleteWorkflow
appends a terminal `WorkflowCompleted` event, with no fail-decision verdict
and no retry/cron continue-as-new involved. -/
theorem C1_counterexample :
    (newDecisionTaskHandler "worker-1" 4 0 "did-1" c1MS).hasUnhandledEventsBeforeDecisions
        = true
    ∧ c1Batch.any Decision.isTerminal = true
    ∧ c1Run.1 = none
    ∧ c1Run.2.failDecision = false
    ∧ c1Run.2.failDecisionCause = none
    ∧ c1Run.2.continueAsNewBuilder = none
    ∧ completionEventCount c1Run.2.mutableState.events = 1 := by
  decide

/-- C1 (amended): whenever a terminal decision (CompleteWorkflow,
FailWorkflow, CancelWorkflow or ContinueAsNew) is handled while the handler's
`hasUnhandledEventsBeforeDecisions` flag is still true, the verdict is a
fail-decision with cause `UnhandledDecision` and the mutable state is left
untouched — no terminal event is appended.  (The flag is initialized from the
buffered-events state at batch start, but a successful CancelTimer earlier in
the batch refreshes it, so a batch with buffered events at its start may
still append a terminal event; the retry/cron continue-as-new path is behind
the same check and is rejected like the rest.) -/
theorem C1_unhandled_terminal_fails_decision (env : HandlerEnv) (d : Decision)
    (handler : DecisionTaskHandler)
    (hterm : d.isTerminal = true)
    (hflag : handler.hasUnhandledEventsBeforeDecisions = true) :
    handleDecision env d handler =
      (none, { handler with
        failDecision := true
        failDecisionCause := some DecisionTaskFailedCause.unhandledDecision
        failMessage := some ""
        stopProcessing := true }) := by
  cases d <;>
    simp_all [handleDecision, handleDecisionCompleteWorkflow, handleDecisionFailWorkflow,
      handleDecisionCancelWorkflow, handleDecisionContinueAsNewWorkflow,
      handlerFailDecision, Decision.isTerminal]

/-- C1 witness: the amended theorem applied to a concrete terminal decision
on a concrete handler with buffered events. -/
theorem C1_unhandled_terminal_fails_decision_witness :
    (Decision.completeWorkflowExecution { result := [] }).isTerminal = true
    ∧ (newDecisionTaskHandler "worker-1" 4 0 "did-1" c1MS).hasUnhandledEventsBeforeDecisions
        = true
    ∧ handleDecision testEnv (.completeWorkflowExecution { result := [] })
        (newDecisionTaskHandler "worker-1" 4 0 "did-1" c1MS) =
      (none, { newDecisionTaskHandler "worker-1" 4 0 "did-1" c1MS with
        failDecision := true
        failDecisionCause := some DecisionTaskFailedCause.unhandledDecision
        failMessage := some ""
        stopProcessing := true }) :=
  ⟨by decide, by decide,
    C1_unhandled_terminal_fails_decision testEnv _ _ (by decide) (by decide)⟩

/-- C2: a decision whose payload exceeds the per-domain blob-size error limit
(here ScheduleActivity, the cited handler) terminates the workflow with a
`WorkflowExecutionTerminated(PayloadSizeExceedsLimit)` event, sets
`stopProcessing`, returns success (nil), appends no decision event and no
transfer task, and causes every later decision of the batch to be ignored. -/
theorem C2_oversize_payload_terminates_workflow (env : HandlerEnv)
    (attr : ScheduleActivityTaskDecisionAttributes) (handler : DecisionTaskHandler)
    (rest : List Decision) (targetDomainID : String)
    (hresolve : resolveTargetDomainID env handler.mutableState.executionInfo.domainID
      attr.domain ("Unable to schedule activity across domain " ++ attr.domain ++ ".") =
      .ok targetDomainID)
    (hvalid : env.validator.validateActivityScheduleAttributes
      handler.mutableState.executionInfo.domainID targetDomainID attr
      handler.mutableState.executionInfo.workflowTimeout = none)
    (hstop : handler.stopProcessing = false)
    (hsize : attr.input.length > env.blobSizeErrorLimit) :
    handleDecisions env handler (.scheduleActivityTask attr :: rest) =
      (none, { handler with
        mutableState := { handler.mutableState with
          nextEventID := handler.mutableState.nextEventID + 1
          events := handler.mutableState.events ++
            [{ eventID := handler.mutableState.nextEventID,
               attrs := .workflowExecutionTerminated terminateReasonPayloadSizeExceedsLimit
                 "ScheduleActivityTaskDecisionAttributes.Input exceeds size limit." }]
          running := false }
        stopProcessing := true }) := by
  simp [handleDecisions, handleDecision, handleDecisionScheduleActivity, MS.getExecutionInfo,
    hresolve, validateDecisionAttr, hvalid, hstop, failWorkflowIfBlobSizeExceedsLimit,
    hsize, MS.appendEvent]

/-- Environment with a 1-byte blob error limit, used to exercise the
oversize-payload paths. -/
def smallLimitEnv : HandlerEnv := { testEnv with blobSizeErrorLimit := 1 }

/-- A ScheduleActivity decision whose 3-byte input exceeds `smallLimitEnv`'s
limit. -/
def oversizedScheduleAttr : ScheduleActivityTaskDecisionAttributes :=
  { activityId := "a", activityType := "T", domain := "", taskList := "tl-a",
    input := [1, 2, 3], scheduleToCloseTimeoutSeconds := some 30,
    scheduleToStartTimeoutSeconds := some 10, startToCloseTimeoutSeconds := some 20 }

/-- C2 witness: the theorem applied at a concrete oversize input; the
following RecordMarker decision of the batch is not applied. -/
theorem C2_oversize_payload_terminates_workflow_witness :
    resolveTargetDomainID smallLimitEnv "did-1" ""
        ("Unable to schedule activity across domain " ++ "" ++ ".") = .ok "did-1"
    ∧ smallLimitEnv.validator.validateActivityScheduleAttributes "did-1" "did-1"
        oversizedScheduleAttr 60 = none
    ∧ testHandler.stopProcessing = false
    ∧ oversizedScheduleAttr.input.length > smallLimitEnv.blobSizeErrorLimit
    ∧ handleDecisions smallLimitEnv testHandler
        [.scheduleActivityTask oversizedScheduleAttr,
         .recordMarker { markerName := "m", details := [] }] =
      (none, { testHandler with
        mutableState := { testHandler.mutableState with
          nextEventID := testHandler.mutableState.nextEventID + 1
          events := testHandler.mutableState.events ++
            [{ eventID := testHandler.mutableState.nextEventID,
               attrs := .workflowExecutionTerminated terminateReasonPayloadSizeExceedsLimit
                 "ScheduleActivityTaskDecisionAttributes.Input exceeds size limit." }]
          running := false }
        stopProcessing := true }) :=
  ⟨by decide, by decide, by decide, by decide,
    C2_oversize_payload_terminates_workflow smallLimitEnv oversizedScheduleAttr testHandler
      _ "did-1" (by decide) (by decide) (by decide) (by decide)⟩

/-- The C3 counterexample run: a RequestCancelActivity for an unknown
activity id. -/
def c3Run : HandlerResult :=
  handleDecisions testEnv testHandler [.requestCancelActivityTask { activityId := "nope" }]

/-- C3, counterexample: the state-mutator `AddActivityTaskCancelRequestedEvent`
returns a BadRequest (unknown activity id), yet the handler does NOT convert
it into a fail-decision verdict — it appends a
`RequestCancelActivityTaskFailedEvent` to the mutable state and returns
success with all verdict fields untouched. -/
theorem C3_counterexample :
    testMS.addActivityTaskCancelRequestedEvent 4 "nope" "worker-1" =
      .error (.badRequest "unknown activity id")
    ∧ c3Run.1 = none
    ∧ c3Run.2.failDecision = false
    ∧ c3Run.2.failDecisionCause = none
    ∧ c3Run.2.stopProcessing = false
    ∧ c3Run.2.mutableState.events =
        [{ eventID := 5,
           attrs := .requestCancelActivityTaskFailed "nope" "ACTIVITY_ID_UNKNOWN" }] := by
  decide

/-- C3 (amended): whenever a *validator* returns a BadRequest during decision
handling, `validateDecisionAttr` converts it into a fail-decision verdict
that sets exactly the four fields `failDecision = true`, `failDecisionCause`,
`failMessage` (the error's message) and `stopProcessing = true`, leaves the
mutable state untouched (no event appended) and returns success (nil).
(State-mutator BadRequests are also never surfaced as errors, but for
RequestCancelActivity and CancelTimer the handler instead appends a failure
event without failing the decision, as the counterexample shows.) -/
theorem C3_validator_bad_request_fails_decision (handler : DecisionTaskHandler)
    (failedCause : DecisionTaskFailedCause) (msg : String) :
    validateDecisionAttr handler (some (.badRequest msg)) failedCause =
      (none, { handler with
        failDecision := true
        failDecisionCause := some failedCause
        failMessage := some msg
        stopProcessing := true }) := rfl

/-- C4: a ScheduleActivity decision that passes resolution, validation and
the blob check either (fresh activity id) appends exactly one
`ActivityTask{targetDomainID, attr.taskList, scheduleID}` transfer task whose
`scheduleID` equals the event id of the scheduled event just appended, or
(duplicate activity id, the mutator's BadRequest) fails the decision with
cause `ScheduleActivityDuplicateID`. -/
theorem C4_schedule_activity_transfer_task (env : HandlerEnv)
    (attr : ScheduleActivityTaskDecisionAttributes) (handler : DecisionTaskHandler)
    (targetDomainID : String)
    (hresolve : resolveTargetDomainID env handler.mutableState.executionInfo.domainID
      attr.domain ("Unable to schedule activity across domain " ++ attr.domain ++ ".") =
      .ok targetDomainID)
    (hvalid : env.validator.validateActivityScheduleAttributes
      handler.mutableState.executionInfo.domainID targetDomainID attr
      handler.mutableState.executionInfo.workflowTimeout = none)
    (hstop : handler.stopProcessing = false)
    (hsize : ¬ attr.input.length > env.blobSizeErrorLimit) :
    (handler.mutableState.activityInfos.lookup attr.activityId = none →
      handleDecisionScheduleActivity env attr handler =
        (none, { handler with
          mutableState := { handler.mutableState with
            nextEventID := handler.mutableState.nextEventID + 1
            events := handler.mutableState.events ++
              [{ eventID := handler.mutableState.nextEventID,
                 attrs := .activityTaskScheduled attr }]
            activityInfos := handler.mutableState.activityInfos ++
              [(attr.activityId,
                { scheduleID := handler.mutableState.nextEventID,
                  startedID := emptyEventID })] }
          transferTasks := handler.transferTasks ++
            [.activityTask targetDomainID attr.taskList handler.mutableState.nextEventID] }))
    ∧ ((handler.mutableState.activityInfos.lookup attr.activityId).isSome = true →
      handleDecisionScheduleActivity env attr handler =
        (none, { handler with
          failDecision := true
          failDecisionCause := some DecisionTaskFailedCause.scheduleActivityDuplicateID
          failMessage := some ""
          stopProcessing := true })) := by
  constructor
  · intro hlookup
    simp [handleDecisionScheduleActivity, MS.getExecutionInfo, hresolve,
      validateDecisionAttr, hvalid, hstop, failWorkflowIfBlobSizeExceedsLimit, hsize,
      MS.addActivityTaskScheduledEvent, hlookup, MS.appendEvent]
  · intro hlookup
    simp [handleDecisionScheduleActivity, MS.getExecutionInfo, hresolve,
      validateDecisionAttr, hvalid, hstop, failWorkflowIfBlobSizeExceedsLimit, hsize,
      MS.addActivityTaskScheduledEvent, hlookup, handlerFailDecision]

/-- Mutable state that already contains activity id `"a"`, for the
duplicate-id branch of the C4 witness. -/
def dupActivityMS : MS :=
  { testMS with activityInfos := [("a", { scheduleID := 2, startedID := emptyEventID })] }

/-- C4 witness: both branches of the theorem at concrete inputs — a fresh
activity id appends the transfer task with `scheduleID = 5`, and a duplicate
id fails the decision with `ScheduleActivityDuplicateID`. -/
theorem C4_schedule_activity_transfer_task_witness :
    handleDecisionScheduleActivity testEnv oversizedScheduleAttr testHandler =
      (none, { testHandler with
        mutableState := { testHandler.mutableState with
          nextEventID := testHandler.mutableState.nextEventID + 1
          events := testHandler.mutableState.events ++
            [{ eventID := testHandler.mutableState.nextEventID,
               attrs := .activityTaskScheduled oversizedScheduleAttr }]
          activityInfos := testHandler.mutableState.activityInfos ++
            [("a", { scheduleID := testHandler.mutableState.nextEventID,
                     startedID := emptyEventID })] }
        transferTasks := testHandler.transferTasks ++
          [.activityTask "did-1" "tl-a" testHandler.mutableState.nextEventID] })
    ∧ handleDecisionScheduleActivity testEnv oversizedScheduleAttr
        (newDecisionTaskHandler "worker-1" 4 0 "did-1" dupActivityMS) =
      (none, { newDecisionTaskHandler "worker-1" 4 0 "did-1" dupActivityMS with
        failDecision := true
        failDecisionCause := some DecisionTaskFailedCause.scheduleActivityDuplicateID
        failMessage := some ""
        stopProcessing := true }) :=
  ⟨(C4_schedule_activity_transfer_task testEnv oversizedScheduleAttr testHandler "did-1"
      (by decide) (by decide) (by decide) (by decide)).1 (by decide),
   (C4_schedule_activity_transfer_task testEnv oversizedScheduleAttr
      (newDecisionTaskHandler "worker-1" 4 0 "did-1" dupActivityMS) "did-1"
      (by decide) (by decide) (by decide) (by decide)).2 (by decide)⟩

/-- C5: on a FailWorkflow decision over a running workflow with no unhandled
events (validation and blob check passing), the retry backoff for the
decision's reason is consulted first; if it is `NoBackoff` the cron backoff
is consulted; if both are `NoBackoff` a `WorkflowFailedEvent` is appended,
and otherwise the continue-as-new verdict is produced with initiator
`RetryPolicy` (retry backoff applied) or `CronSchedule` (cron backoff
applied), carrying the decision's failure reason and details. -/
theorem C5_fail_workflow_retry_before_cron (env : HandlerEnv)
    (attr : FailWorkflowExecutionDecisionAttributes) (handler : DecisionTaskHandler)
    (sa : WorkflowExecutionStartedEventAttributes)
    (hflag : handler.hasUnhandledEventsBeforeDecisions = false)
    (hvalid : env.validator.validateFailWorkflowExecutionAttributes attr = none)
    (hstop : handler.stopProcessing = false)
    (hsize : ¬ attr.details.length > env.blobSizeErrorLimit)
    (hrun : handler.mutableState.running = true)
    (hstart : handler.mutableState.startEvent = some sa) :
    (handler.mutableState.getRetryBackoffDuration (attr.reason.getD "") = none →
      handler.mutableState.getCronBackoffDuration = none →
      handleDecisionFailWorkflow env attr handler =
        (none, { handler with
          mutableState := { handler.mutableState with
            nextEventID := handler.mutableState.nextEventID + 1
            events := handler.mutableState.events ++
              [{ eventID := handler.mutableState.nextEventID,
                 attrs := .workflowExecutionFailed attr.reason attr.details }]
            running := false } }))
    ∧ (∀ b, handler.mutableState.getRetryBackoffDuration (attr.reason.getD "") = some b →
      handleDecisionFailWorkflow env attr handler =
        (none, { handler with
          mutableState := { handler.mutableState with
            nextEventID := handler.mutableState.nextEventID + 1
            events := handler.mutableState.events ++
              [{ eventID := handler.mutableState.nextEventID,
                 attrs := .workflowExecutionContinuedAsNew
                   { workflowType := sa.workflowType
                     taskList := sa.taskList
                     retryPolicy := sa.retryPolicy
                     input := sa.input
                     executionStartToCloseTimeoutSeconds :=
                       sa.executionStartToCloseTimeoutSeconds
                     taskStartToCloseTimeoutSeconds := sa.taskStartToCloseTimeoutSeconds
                     cronSchedule := sa.cronSchedule
                     backoffStartIntervalInSeconds := some b
                     initiator := some .retryPolicy
                     failureReason := attr.reason
                     failureDetails := attr.details
                     lastCompletionResult := sa.lastCompletionResult } }]
            running := false }
          continueAsNewBuilder := some
            { attrs :=
                { workflowType := sa.workflowType
                  taskList := sa.taskList
                  retryPolicy := sa.retryPolicy
                  input := sa.input
                  executionStartToCloseTimeoutSeconds := sa.executionStartToCloseTimeoutSeconds
                  taskStartToCloseTimeoutSeconds := sa.taskStartToCloseTimeoutSeconds
                  cronSchedule := sa.cronSchedule
                  backoffStartIntervalInSeconds := some b
                  initiator := some .retryPolicy
                  failureReason := attr.reason
                  failureDetails := attr.details
                  lastCompletionResult := sa.lastCompletionResult }
              parentDomainName := sa.getParentWorkflowDomain } }))
    ∧ (handler.mutableState.getRetryBackoffDuration (attr.reason.getD "") = none →
      ∀ c, handler.mutableState.getCronBackoffDuration = some c →
      handleDecisionFailWorkflow env attr handler =
        (none, { handler with
          mutableState := { handler.mutableState with
            nextEventID := handler.mutableState.nextEventID + 1
            events := handler.mutableState.events ++
              [{ eventID := handler.mutableState.nextEventID,
                 attrs := .workflowExecutionContinuedAsNew
                   { workflowType := sa.workflowType
                     taskList := sa.taskList
                     retryPolicy := sa.retryPolicy
                     input := sa.input
                     executionStartToCloseTimeoutSeconds :=
                       sa.executionStartToCloseTimeoutSeconds
                     taskStartToCloseTimeoutSeconds := sa.taskStartToCloseTimeoutSeconds
                     cronSchedule := sa.cronSchedule
                     backoffStartIntervalInSeconds := some c
                     initiator := some .cronSchedule
                     failureReason := attr.reason
                     failureDetails := attr.details
                     lastCompletionResult := sa.lastCompletionResult } }]
            running := false }
          continueAsNewBuilder := some
            { attrs :=
                { workflowType := sa.workflowType
                  taskList := sa.taskList
                  retryPolicy := sa.retryPolicy
                  input := sa.input
                  executionStartToCloseTimeoutSeconds := sa.executionStartToCloseTimeoutSeconds
                  taskStartToCloseTimeoutSeconds := sa.taskStartToCloseTimeoutSeconds
                  cronSchedule := sa.cronSchedule
                  backoffStartIntervalInSeconds := some c
                  initiator := some .cronSchedule
                  failureReason := attr.reason
                  failureDetails := attr.details
                  lastCompletionResult := sa.lastCompletionResult }
              parentDomainName := sa.getParentWorkflowDomain } })) := by
  refine ⟨fun hretry hcron => ?_, fun b hretry => ?_, fun hretry c hcron => ?_⟩
  · simp [handleDecisionFailWorkflow, validateDecisionAttr, hvalid, hflag, hstop,
      failWorkflowIfBlobSizeExceedsLimit, hsize, MS.isWorkflowExecutionRunning, hrun,
      hretry, hcron, MS.addFailWorkflowEvent, MS.appendEvent]
  · simp [handleDecisionFailWorkflow, validateDecisionAttr, hvalid, hflag, hstop,
      failWorkflowIfBlobSizeExceedsLimit, hsize, MS.isWorkflowExecutionRunning, hrun,
      hretry, MS.getStartEvent, hstart, retryCronContinueAsNew,
      MS.addContinueAsNewEvent, MS.appendEvent]
  · simp [handleDecisionFailWorkflow, validateDecisionAttr, hvalid, hflag, hstop,
      failWorkflowIfBlobSizeExceedsLimit, hsize, MS.isWorkflowExecutionRunning, hrun,
      hretry, hcron, MS.getStartEvent, hstart, retryCronContinueAsNew,
      MS.addContinueAsNewEvent, MS.appendEvent]

/-- Mutable state with a 1-second retry backoff for reason `"boom"`, used by
the C5 witness. -/
def retryMS : MS := { testMS with retryBackoffSeconds := [("boom", 1)] }

/-- C5 witness: the retry branch of the theorem at a concrete input (spec
section 8, scenario 5): verdict is continue-as-new with
`backoffStartIntervalSeconds = 1`, `initiator = RetryPolicy`,
`failureReason = "boom"`, and no `WorkflowFailedEvent`. -/
theorem C5_fail_workflow_retry_before_cron_witness :
    handleDecisionFailWorkflow testEnv { reason := some "boom", details := [3] }
      (newDecisionTaskHandler "worker-1" 4 0 "did-1" retryMS) =
      (none, { newDecisionTaskHandler "worker-1" 4 0 "did-1" retryMS with
        mutableState := { retryMS with
          nextEventID := retryMS.nextEventID + 1
          events := retryMS.events ++
            [{ eventID := retryMS.nextEventID,
               attrs := .workflowExecutionContinuedAsNew
                 { workflowType := testStartAttributes.workflowType
                   taskList := testStartAttributes.taskList
                   retryPolicy := testStartAttributes.retryPolicy
                   input := testStartAttributes.input
                   executionStartToCloseTimeoutSeconds :=
                     testStartAttributes.executionStartToCloseTimeoutSeconds
                   taskStartToCloseTimeoutSeconds :=
                     testStartAttributes.taskStartToCloseTimeoutSeconds
                   cronSchedule := testStartAttributes.cronSchedule
                   backoffStartIntervalInSeconds := some 1
                   initiator := some .retryPolicy
                   failureReason := some "boom"
                   failureDetails := [3]
                   lastCompletionResult := testStartAttributes.lastCompletionResult } }]
          running := false }
        continueAsNewBuilder := some
          { attrs :=
              { workflowType := testStartAttributes.workflowType
                taskList := testStartAttributes.taskList
                retryPolicy := testStartAttributes.retryPolicy
                input := testStartAttributes.input
                executionStartToCloseTimeoutSeconds :=
                  testStartAttributes.executionStartToCloseTimeoutSeconds
                taskStartToCloseTimeoutSeconds :=
                  testStartAttributes.taskStartToCloseTimeoutSeconds
                cronSchedule := testStartAttributes.cronSchedule
                backoffStartIntervalInSeconds := some 1
                initiator := some .retryPolicy
                failureReason := some "boom"
                failureDetails := [3]
                lastCompletionResult := testStartAttributes.lastCompletionResult }
            parentDomainName := testStartAttributes.getParentWorkflowDomain } }) :=
  (C5_fail_workflow_retry_before_cron testEnv { reason := some "boom", details := [3] }
    (newDecisionTaskHandler "worker-1" 4 0 "did-1" retryMS) testStartAttributes
    (by decide) (by decide) (by decide) (by decide) (by decide) (by decide)).2.1
    1 (by decide)

/-- C10: on the FailWorkflow retry/cron continue-as-new path, the
continue-as-new attributes handed to `AddContinueAsNewEvent` (and recorded in
the builder) inherit workflow type, task list, retry policy, input, both
timeouts and cron schedule from the original start event's attributes, take
`FailureReason`/`FailureDetails` from the fail decision, and take
`LastCompletionResult` from the start event's `LastCompletionResult` field
(the previous run's result), not from anything in the fail decision. -/
theorem C10_retry_cron_continue_as_new_attributes (env : HandlerEnv)
    (attr : FailWorkflowExecutionDecisionAttributes) (handler : DecisionTaskHandler)
    (sa : WorkflowExecutionStartedEventAttributes)
    (hflag : handler.hasUnhandledEventsBeforeDecisions = false)
    (hvalid : env.validator.validateFailWorkflowExecutionAttributes attr = none)
    (hstop : handler.stopProcessing = false)
    (hsize : ¬ attr.details.length > env.blobSizeErrorLimit)
    (hrun : handler.mutableState.running = true)
    (hstart : handler.mutableState.startEvent = some sa) :
    (∀ b, handler.mutableState.getRetryBackoffDuration (attr.reason.getD "") = some b →
      (handleDecisionFailWorkflow env attr handler).2.continueAsNewBuilder = some
        { attrs :=
            { workflowType := sa.workflowType
              taskList := sa.taskList
              retryPolicy := sa.retryPolicy
              input := sa.input
              executionStartToCloseTimeoutSeconds := sa.executionStartToCloseTimeoutSeconds
              taskStartToCloseTimeoutSeconds := sa.taskStartToCloseTimeoutSeconds
              cronSchedule := sa.cronSchedule
              backoffStartIntervalInSeconds := some b
              initiator := some .retryPolicy
              failureReason := attr.reason
              failureDetails := attr.details
              lastCompletionResult := sa.lastCompletionResult }
          parentDomainName := sa.getParentWorkflowDomain })
    ∧ (handler.mutableState.getRetryBackoffDuration (attr.reason.getD "") = none →
      ∀ c, handler.mutableState.getCronBackoffDuration = some c →
      (handleDecisionFailWorkflow env attr handler).2.continueAsNewBuilder = some
        { attrs :=
            { workflowType := sa.workflowType
              taskList := sa.taskList
              retryPolicy := sa.retryPolicy
              input := sa.input
              executionStartToCloseTimeoutSeconds := sa.executionStartToCloseTimeoutSeconds
              taskStartToCloseTimeoutSeconds := sa.taskStartToCloseTimeoutSeconds
              cronSchedule := sa.cronSchedule
              backoffStartIntervalInSeconds := some c
              initiator := some .cronSchedule
              failureReason := attr.reason
              failureDetails := attr.details
              lastCompletionResult := sa.lastCompletionResult }
          parentDomainName := sa.getParentWorkflowDomain }) := by
  refine ⟨fun b hretry => ?_, fun hretry c hcron => ?_⟩
  · simp [handleDecisionFailWorkflow, validateDecisionAttr, hvalid, hflag, hstop,
      failWorkflowIfBlobSizeExceedsLimit, hsize, MS.isWorkflowExecutionRunning, hrun,
      hretry, MS.getStartEvent, hstart, retryCronContinueAsNew,
      MS.addContinueAsNewEvent, MS.appendEvent]
  · simp [handleDecisionFailWorkflow, validateDecisionAttr, hvalid, hflag, hstop,
      failWorkflowIfBlobSizeExceedsLimit, hsize, MS.isWorkflowExecutionRunning, hrun,
      hretry, hcron, MS.getStartEvent, hstart, retryCronContinueAsNew,
      MS.addContinueAsNewEvent, MS.appendEvent]

/-- C10 witness: the retry branch at a concrete input; the builder carries
the start event's `lastCompletionResult = [9, 9]` while the failure fields
come from the decision. -/
theorem C10_retry_cron_continue_as_new_attributes_witness :
    (handleDecisionFailWorkflow testEnv { reason := some "boom", details := [3] }
        (newDecisionTaskHandler "worker-1" 4 0 "did-1" retryMS)).2.continueAsNewBuilder =
      some
        { attrs :=
            { workflowType := testStartAttributes.workflowType
              taskList := testStartAttributes.taskList
              retryPolicy := testStartAttributes.retryPolicy
              input := testStartAttributes.input
              executionStartToCloseTimeoutSeconds :=
                testStartAttributes.executionStartToCloseTimeoutSeconds
              taskStartToCloseTimeoutSeconds :=
                testStartAttributes.taskStartToCloseTimeoutSeconds
              cronSchedule := testStartAttributes.cronSchedule
              backoffStartIntervalInSeconds := some 1
              initiator := some .retryPolicy
              failureReason := some "boom"
              failureDetails := [3]
              lastCompletionResult := testStartAttributes.lastCompletionResult }
          parentDomainName := testStartAttributes.getParentWorkflowDomain } :=
  (C10_retry_cron_continue_as_new_attributes testEnv { reason := some "boom", details := [3] }
    (newDecisionTaskHandler "worker-1" 4 0 "did-1" retryMS) testStartAttributes
    (by decide) (by decide) (by decide) (by decide) (by decide) (by decide)).1
    1 (by decide)

/-- C8, counterexample: CancelWorkflow performs no blob-size check — with a
1-byte error limit and 3-byte details, the handler still applies the
cancellation (appending `WorkflowCanceledEvent`, closing the workflow) instead
of terminating the workflow; no `WorkflowExecutionTerminated` event and no
`stopProcessing`. -/
theorem C8_counterexample :
    ([1, 2, 3] : Payload).length > smallLimitEnv.blobSizeErrorLimit
    ∧ handleDecisionCancelWorkflow smallLimitEnv { details := [1, 2, 3] } testHandler =
      (none, { testHandler with
        mutableState := { testMS with
          nextEventID := 6
          events := [{ eventID := 5, attrs := .workflowExecutionCanceled [1, 2, 3] }]
          running := false } }) := by
  decide

/-- C8 (amended): CompleteWorkflow and FailWorkflow blob-check their
result/details after the unhandled-events check and attribute validation and
before mutating state, so an oversize payload on either terminates the
workflow (`WorkflowExecutionTerminated(PayloadSizeExceedsLimit)`, stop
processing, nil error) instead of applying the decision; CancelWorkflow
performs no blob check and applies the cancellation even with oversize
details. -/
theorem C8_terminal_blob_checks (env : HandlerEnv) (handler : DecisionTaskHandler)
    (hstop : handler.stopProcessing = false)
    (hflag : handler.hasUnhandledEventsBeforeDecisions = false) :
    (∀ attr : CompleteWorkflowExecutionDecisionAttributes,
      env.validator.validateCompleteWorkflowExecutionAttributes attr = none →
      attr.result.length > env.blobSizeErrorLimit →
      handleDecisionCompleteWorkflow env attr handler =
        (none, { handler with
          mutableState := { handler.mutableState with
            nextEventID := handler.mutableState.nextEventID + 1
            events := handler.mutableState.events ++
              [{ eventID := handler.mutableState.nextEventID,
                 attrs := .workflowExecutionTerminated terminateReasonPayloadSizeExceedsLimit
                   "CompleteWorkflowExecutionDecisionAttributes.Result exceeds size limit." }]
            running := false }
          stopProcessing := true }))
    ∧ (∀ attr : FailWorkflowExecutionDecisionAttributes,
      env.validator.validateFailWorkflowExecutionAttributes attr = none →
      attr.details.length > env.blobSizeErrorLimit →
      handleDecisionFailWorkflow env attr handler =
        (none, { handler with
          mutableState := { handler.mutableState with
            nextEventID := handler.mutableState.nextEventID + 1
            events := handler.mutableState.events ++
              [{ eventID := handler.mutableState.nextEventID,
                 attrs := .workflowExecutionTerminated terminateReasonPayloadSizeExceedsLimit
                   "FailWorkflowExecutionDecisionAttributes.Details exceeds size limit." }]
            running := false }
          stopProcessing := true }))
    ∧ (∀ attr : CancelWorkflowExecutionDecisionAttributes,
      env.validator.validateCancelWorkflowExecutionAttributes attr = none →
      handler.mutableState.running = true →
      handleDecisionCancelWorkflow env attr handler =
        (none, { handler with
          mutableState := { handler.mutableState with
            nextEventID := handler.mutableState.nextEventID + 1
            events := handler.mutableState.events ++
              [{ eventID := handler.mutableState.nextEventID,
                 attrs := .workflowExecutionCanceled attr.details }]
            running := false } })) := by
  refine ⟨fun attr hvalid hsize => ?_, fun attr hvalid hsize => ?_,
    fun attr hvalid hrun => ?_⟩
  · simp [handleDecisionCompleteWorkflow, validateDecisionAttr, hvalid, hflag, hstop,
      failWorkflowIfBlobSizeExceedsLimit, hsize, MS.appendEvent]
  · simp [handleDecisionFailWorkflow, validateDecisionAttr, hvalid, hflag, hstop,
      failWorkflowIfBlobSizeExceedsLimit, hsize, MS.appendEvent]
  · simp [handleDecisionCancelWorkflow, validateDecisionAttr, hvalid, hflag, hstop,
      MS.isWorkflowExecutionRunning, hrun,
      MS.addWorkflowExecutionCanceledEvent, MS.appendEvent]

/-- C8 witness: all three branches of the amended theorem at concrete
inputs — oversize Complete and Fail terminate; Cancel with the same oversize
details still cancels. -/
theorem C8_terminal_blob_checks_witness :
    handleDecisionCompleteWorkflow smallLimitEnv { result := [1, 2, 3] } testHandler =
      (none, { testHandler with
        mutableState := { testHandler.mutableState with
          nextEventID := testHandler.mutableState.nextEventID + 1
          events := testHandler.mutableState.events ++
            [{ eventID := testHandler.mutableState.nextEventID,
               attrs := .workflowExecutionTerminated terminateReasonPayloadSizeExceedsLimit
                 "CompleteWorkflowExecutionDecisionAttributes.Result exceeds size limit." }]
          running := false }
        stopProcessing := true })
    ∧ handleDecisionFailWorkflow smallLimitEnv { reason := none, details := [1, 2, 3] }
        testHandler =
      (none, { testHandler with
        mutableState := { testHandler.mutableState with
          nextEventID := testHandler.mutableState.nextEventID + 1
          events := testHandler.mutableState.events ++
            [{ eventID := testHandler.mutableState.nextEventID,
               attrs := .workflowExecutionTerminated terminateReasonPayloadSizeExceedsLimit
                 "FailWorkflowExecutionDecisionAttributes.Details exceeds size limit." }]
          running := false }
        stopProcessing := true })
    ∧ handleDecisionCancelWorkflow smallLimitEnv { details := [1, 2, 3] } testHandler =
      (none, { testHandler with
        mutableState := { testHandler.mutableState with
          nextEventID := testHandler.mutableState.nextEventID + 1
          events := testHandler.mutableState.events ++
            [{ eventID := testHandler.mutableState.nextEventID,
               attrs := .workflowExecutionCanceled [1, 2, 3] }]
          running := false } }) :=
  ⟨(C8_terminal_blob_checks smallLimitEnv testHandler (by decide) (by decide)).1
      { result := [1, 2, 3] } (by decide) (by decide),
   (C8_terminal_blob_checks smallLimitEnv testHandler (by decide) (by decide)).2.1
      { reason := none, details := [1, 2, 3] } (by decide) (by decide),
   (C8_terminal_blob_checks smallLimitEnv testHandler (by decide) (by decide)).2.2
      { details := [1, 2, 3] } (by decide) (by decide)⟩

/-- The completion/running potential of a mutable state: completion-type
events already appended plus one if the workflow is still running.  Every
handler step leaves it non-increasing, which bounds the completion-type
events a batch can append. -/
def msPotential (ms : MS) : Nat :=
  completionEventCount ms.events + (if ms.running then 1 else 0)

/-- The per-step invariant shared by the batch-level proofs: a step that
changes the fail-decision flag appends no transfer task, `timerTasks` is
never touched, and the completion/running potential does not increase. -/
def handlerStepOK (handler r : DecisionTaskHandler) : Prop :=
  (r.failDecision = handler.failDecision ∨ r.transferTasks = handler.transferTasks)
  ∧ r.timerTasks = handler.timerTasks
  ∧ msPotential r.mutableState ≤ msPotential handler.mutableState

theorem completionEventCount_append (l1 l2 : List HistoryEvent) :
    completionEventCount (l1 ++ l2) = completionEventCount l1 + completionEventCount l2 := by
  simp [completionEventCount]

theorem handlerStepOK_self (h : DecisionTaskHandler) : handlerStepOK h h := by
  simp [handlerStepOK]

theorem stepOK_scheduleActivity (env : HandlerEnv)
    (attr : ScheduleActivityTaskDecisionAttributes) (handler : DecisionTaskHandler) :
    handlerStepOK handler (handleDecisionScheduleActivity env attr handler).2 := by
  simp only [handleDecisionScheduleActivity, MS.getExecutionInfo]
  split
  · exact handlerStepOK_self handler
  · rename_i t hres
    cases hv : env.validator.validateActivityScheduleAttributes
        handler.mutableState.executionInfo.domainID t attr
        handler.mutableState.executionInfo.workflowTimeout with
    | none =>
      simp only [validateDecisionAttr]
      by_cases hstop : handler.stopProcessing = true
      · simp only [if_pos hstop]; exact handlerStepOK_self handler
      · simp only [if_neg hstop]
        by_cases hblob : List.length attr.input > env.blobSizeErrorLimit
        · simp [failWorkflowIfBlobSizeExceedsLimit, hblob, MS.appendEvent, handlerStepOK,
            msPotential, completionEventCount_append, completionEventCount,
            completionEventWeight]
        · simp only [failWorkflowIfBlobSizeExceedsLimit, if_neg hblob]
          by_cases hdup :
              (List.lookup attr.activityId handler.mutableState.activityInfos).isSome = true
          · simp [MS.addActivityTaskScheduledEvent, hdup, handlerFailDecision, handlerStepOK]
          · simp [MS.addActivityTaskScheduledEvent, hdup, MS.appendEvent, handlerStepOK,
              msPotential, completionEventCount_append, completionEventCount,
              completionEventWeight]
    | some e =>
      cases e with
      | badRequest m =>
        simp [validateDecisionAttr, handlerFailDecision, handlerStepOK]
      | internalService m =>
        simp only [validateDecisionAttr]
        exact handlerStepOK_self handler

theorem stepOK_requestCancelActivity (env : HandlerEnv)
    (attr : RequestCancelActivityTaskDecisionAttributes) (handler : DecisionTaskHandler) :
    handlerStepOK handler (handleDecisionRequestCancelActivity env attr handler).2 := by
  simp only [handleDecisionRequestCancelActivity]
  cases hv : env.validator.validateActivityCancelAttributes attr with
  | none =>
    simp only [validateDecisionAttr]
    by_cases hstop : handler.stopProcessing = true
    · simp only [if_pos hstop]; exact handlerStepOK_self handler
    · simp only [if_neg hstop, MS.addActivityTaskCancelRequestedEvent]
      cases hreq : List.lookup attr.activityId handler.mutableState.activityInfos with
      | none =>
        simp [hreq, MS.addRequestCancelActivityTaskFailedEvent, MS.appendEvent,
          handlerStepOK, msPotential, completionEventCount_append, completionEventCount,
          completionEventWeight]
      | some ai =>
        simp only [hreq]
        by_cases hstarted : ai.startedID = emptyEventID
        · simp [hstarted, MS.addActivityTaskCanceledEvent, MS.appendEvent, handlerStepOK,
            msPotential, completionEventCount_append, completionEventCount,
            completionEventWeight]
        · simp [hstarted, MS.appendEvent, handlerStepOK, msPotential,
            completionEventCount_append, completionEventCount, completionEventWeight]
  | some e =>
    cases e with
    | badRequest m => simp [validateDecisionAttr, handlerFailDecision, handlerStepOK]
    | internalService m =>
      simp only [validateDecisionAttr]
      exact handlerStepOK_self handler

theorem stepOK_startTimer (env : HandlerEnv) (attr : StartTimerDecisionAttributes)
    (handler : DecisionTaskHandler) :
    handlerStepOK handler (handleDecisionStartTimer env attr handler).2 := by
  simp only [handleDecisionStartTimer]
  cases hv : env.validator.validateTimerScheduleAttributes attr with
  | none =>
    simp only [validateDecisionAttr]
    by_cases hstop : handler.stopProcessing = true
    · simp only [if_pos hstop]; exact handlerStepOK_self handler
    · simp only [if_neg hstop, MS.addTimerStartedEvent]
      cases hdup : handler.mutableState.timerIDs.contains attr.timerId with
      | true => simp [hdup, handlerFailDecision, handlerStepOK]
      | false =>
        simp [hdup, MS.appendEvent, handlerStepOK, msPotential,
          completionEventCount_append, completionEventCount, completionEventWeight]
  | some e =>
    cases e with
    | badRequest m => simp [validateDecisionAttr, handlerFailDecision, handlerStepOK]
    | internalService m =>
      simp only [validateDecisionAttr]
      exact handlerStepOK_self handler

theorem stepOK_cancelTimer (env : HandlerEnv) (attr : CancelTimerDecisionAttributes)
    (handler : DecisionTaskHandler) :
    handlerStepOK handler (handleDecisionCancelTimer env attr handler).2 := by
  simp only [handleDecisionCancelTimer]
  cases hv : env.validator.validateTimerCancelAttributes attr with
  | none =>
    simp only [validateDecisionAttr]
    by_cases hstop : handler.stopProcessing = true
    · simp only [if_pos hstop]; exact handlerStepOK_self handler
    · simp only [if_neg hstop, MS.addTimerCanceledEvent]
      cases hfound : handler.mutableState.timerIDs.contains attr.timerId with
      | true =>
        simp [hfound, MS.appendEvent, handlerStepOK, msPotential,
          completionEventCount_append, completionEventCount, completionEventWeight]
      | false =>
        simp [hfound, MS.addCancelTimerFailedEvent, MS.appendEvent, handlerStepOK,
          msPotential, completionEventCount_append, completionEventCount,
          completionEventWeight]
  | some e =>
    cases e with
    | badRequest m => simp [validateDecisionAttr, handlerFailDecision, handlerStepOK]
    | internalService m =>
      simp only [validateDecisionAttr]
      exact handlerStepOK_self handler

theorem stepOK_completeWorkflow (env : HandlerEnv)
    (attr : CompleteWorkflowExecutionDecisionAttributes) (handler : DecisionTaskHandler) :
    handlerStepOK handler (handleDecisionCompleteWorkflow env attr handler).2 := by
  simp only [handleDecisionCompleteWorkflow]
  by_cases hflag : handler.hasUnhandledEventsBeforeDecisions = true
  · simp [hflag, handlerFailDecision, handlerStepOK]
  · simp only [if_neg hflag]
    cases hv : env.validator.validateCompleteWorkflowExecutionAttributes attr with
    | none =>
      simp only [validateDecisionAttr]
      by_cases hstop : handler.stopProcessing = true
      · simp only [if_pos hstop]; exact handlerStepOK_self handler
      · simp only [if_neg hstop]
        by_cases hblob : List.length attr.result > env.blobSizeErrorLimit
        · simp [failWorkflowIfBlobSizeExceedsLimit, hblob, MS.appendEvent, handlerStepOK,
            msPotential, completionEventCount_append, completionEventCount,
            completionEventWeight]
        · simp only [failWorkflowIfBlobSizeExceedsLimit, if_neg hblob]
          cases hrun : handler.mutableState.running with
          | false =>
            simp [MS.isWorkflowExecutionRunning, hrun, handlerStepOK]
          | true =>
            simp only [MS.isWorkflowExecutionRunning, hrun, Bool.not_true,
              Bool.false_eq_true, if_false]
            cases hcron : handler.mutableState.cronBackoffSeconds with
            | none =>
              simp [MS.getCronBackoffDuration, hcron, MS.addCompletedWorkflowEvent, hrun,
                MS.appendEvent, handlerStepOK, msPotential, completionEventCount_append,
                completionEventCount, completionEventWeight]
            | some c =>
              cases hstart : handler.mutableState.startEvent with
              | none =>
                simp [MS.getCronBackoffDuration, hcron, MS.getStartEvent, hstart,
                  handlerStepOK]
              | some sa =>
                simp [MS.getCronBackoffDuration, hcron, MS.getStartEvent, hstart,
                  retryCronContinueAsNew, MS.addContinueAsNewEvent, hrun, MS.appendEvent,
                  handlerStepOK, msPotential, completionEventCount_append,
                  completionEventCount, completionEventWeight]
    | some e =>
      cases e with
      | badRequest m => simp [validateDecisionAttr, handlerFailDecision, handlerStepOK]
      | internalService m =>
        simp only [validateDecisionAttr]
        exact handlerStepOK_self handler

theorem stepOK_failWorkflow (env : HandlerEnv)
    (attr : FailWorkflowExecutionDecisionAttributes) (handler : DecisionTaskHandler) :
    handlerStepOK handler (handleDecisionFailWorkflow env attr handler).2 := by
  simp only [handleDecisionFailWorkflow]
  by_cases hflag : handler.hasUnhandledEventsBeforeDecisions = true
  · simp [hflag, handlerFailDecision, handlerStepOK]
  · simp only [if_neg hflag]
    cases hv : env.validator.validateFailWorkflowExecutionAttributes attr with
    | none =>
      simp only [validateDecisionAttr]
      by_cases hstop : handler.stopProcessing = true
      · simp only [if_pos hstop]; exact handlerStepOK_self handler
      · simp only [if_neg hstop]
        by_cases hblob : List.length attr.details > env.blobSizeErrorLimit
        · simp [failWorkflowIfBlobSizeExceedsLimit, hblob, MS.appendEvent, handlerStepOK,
            msPotential, completionEventCount_append, completionEventCount,
            completionEventWeight]
        · simp only [failWorkflowIfBlobSizeExceedsLimit, if_neg hblob]
          cases hrun : handler.mutableState.running with
          | false =>
            simp [MS.isWorkflowExecutionRunning, hrun, handlerStepOK]
          | true =>
            simp only [MS.isWorkflowExecutionRunning, hrun, Bool.not_true,
              Bool.false_eq_true, if_false]
            cases hretry : handler.mutableState.getRetryBackoffDuration (attr.reason.getD "")
                with
            | none =>
              simp only [hretry, if_pos]
              cases hcron : handler.mutableState.getCronBackoffDuration with
              | none =>
                simp [hcron, MS.addFailWorkflowEvent, hrun, MS.appendEvent, handlerStepOK,
                  msPotential, completionEventCount_append, completionEventCount,
                  completionEventWeight]
              | some c =>
                cases hstart : handler.mutableState.startEvent with
                | none => simp [hcron, MS.getStartEvent, hstart, handlerStepOK]
                | some sa =>
                  simp [hcron, MS.getStartEvent, hstart, retryCronContinueAsNew,
                    MS.addContinueAsNewEvent, hrun, MS.appendEvent, handlerStepOK,
                    msPotential, completionEventCount_append, completionEventCount,
                    completionEventWeight]
            | some b =>
              cases hstart : handler.mutableState.startEvent with
              | none => simp [hretry, MS.getStartEvent, hstart, handlerStepOK]
              | some sa =>
                simp [hretry, MS.getStartEvent, hstart, retryCronContinueAsNew,
                  MS.addContinueAsNewEvent, hrun, MS.appendEvent, handlerStepOK,
                  msPotential, completionEventCount_append, completionEventCount,
                  completionEventWeight]
    | some e =>
      cases e with
      | badRequest m => simp [validateDecisionAttr, handlerFailDecision, handlerStepOK]
      | internalService m =>
        simp only [validateDecisionAttr]
        exact handlerStepOK_self handler

theorem stepOK_cancelWorkflow (env : HandlerEnv)
    (attr : CancelWorkflowExecutionDecisionAttributes) (handler : DecisionTaskHandler) :
    handlerStepOK handler (handleDecisionCancelWorkflow env attr handler).2 := by
  simp only [handleDecisionCancelWorkflow]
  by_cases hflag : handler.hasUnhandledEventsBeforeDecisions = true
  · simp [hflag, handlerFailDecision, handlerStepOK]
  · simp only [if_neg hflag]
    cases hv : env.validator.validateCancelWorkflowExecutionAttributes attr with
    | none =>
      simp only [validateDecisionAttr]
      by_cases hstop : handler.stopProcessing = true
      · simp only [if_pos hstop]; exact handlerStepOK_self handler
      · simp only [if_neg hstop]
        cases hrun : handler.mutableState.running with
        | false => simp [MS.isWorkflowExecutionRunning, hrun, handlerStepOK]
        | true =>
          simp [MS.isWorkflowExecutionRunning, hrun,
            MS.addWorkflowExecutionCanceledEvent, MS.appendEvent, handlerStepOK,
            msPotential, completionEventCount_append, completionEventCount,
            completionEventWeight]
    | some e =>
      cases e with
      | badRequest m => simp [validateDecisionAttr, handlerFailDecision, handlerStepOK]
      | internalService m =>
        simp only [validateDecisionAttr]
        exact handlerStepOK_self handler

theorem stepOK_recordMarker (env : HandlerEnv) (attr : RecordMarkerDecisionAttributes)
    (handler : DecisionTaskHandler) :
    handlerStepOK handler (handleDecisionRecordMarker env attr handler).2 := by
  simp only [handleDecisionRecordMarker]
  cases hv : env.validator.validateRecordMarkerAttributes attr with
  | none =>
    simp only [validateDecisionAttr]
    by_cases hstop : handler.stopProcessing = true
    · simp only [if_pos hstop]; exact handlerStepOK_self handler
    · simp only [if_neg hstop]
      by_cases hblob : List.length attr.details > env.blobSizeErrorLimit
      · simp [failWorkflowIfBlobSizeExceedsLimit, hblob, MS.appendEvent, handlerStepOK,
          msPotential, completionEventCount_append, completionEventCount,
          completionEventWeight]
      · simp [failWorkflowIfBlobSizeExceedsLimit, hblob, MS.addRecordMarkerEvent,
          MS.appendEvent, handlerStepOK, msPotential, completionEventCount_append,
          completionEventCount, completionEventWeight]
  | some e =>
    cases e with
    | badRequest m => simp [validateDecisionAttr, handlerFailDecision, handlerStepOK]
    | internalService m =>
      simp only [validateDecisionAttr]
      exact handlerStepOK_self handler

theorem stepOK_continueAsNew (env : HandlerEnv)
    (attr : ContinueAsNewWorkflowExecutionDecisionAttributes)
    (handler : DecisionTaskHandler) :
    handlerStepOK handler (handleDecisionContinueAsNewWorkflow env attr handler).2 := by
  simp only [handleDecisionContinueAsNewWorkflow, MS.getExecutionInfo]
  by_cases hflag : handler.hasUnhandledEventsBeforeDecisions = true
  · simp [hflag, handlerFailDecision, handlerStepOK]
  · simp only [if_neg hflag]
    cases hv : env.validator.validateContinueAsNewWorkflowExecutionAttributes attr
        handler.mutableState.executionInfo with
    | none =>
      simp only [validateDecisionAttr]
      by_cases hstop : handler.stopProcessing = true
      · simp only [if_pos hstop]; exact handlerStepOK_self handler
      · simp only [if_neg hstop]
        by_cases hblob : List.length attr.input > env.blobSizeErrorLimit
        · simp [failWorkflowIfBlobSizeExceedsLimit, hblob, MS.appendEvent, handlerStepOK,
            msPotential, completionEventCount_append, completionEventCount,
            completionEventWeight]
        · simp only [failWorkflowIfBlobSizeExceedsLimit, if_neg hblob]
          cases hrun : handler.mutableState.running with
          | false => simp [MS.isWorkflowExecutionRunning, hrun, handlerStepOK]
          | true =>
            simp only [MS.isWorkflowExecutionRunning, hrun, Bool.not_true,
              Bool.false_eq_true, if_false]
            cases hpar : handler.mutableState.hasParentExecutionFlag with
            | false =>
              simp [MS.hasParentExecution, hpar, MS.addContinueAsNewEvent, hrun,
                MS.appendEvent, handlerStepOK, msPotential, completionEventCount_append,
                completionEventCount, completionEventWeight]
            | true =>
              cases hdc : env.domainCache.getDomainByID
                  handler.mutableState.executionInfo.parentDomainID with
              | none => simp [MS.hasParentExecution, hpar, hdc, handlerStepOK]
              | some entry =>
                simp [MS.hasParentExecution, hpar, hdc, MS.addContinueAsNewEvent, hrun,
                  MS.appendEvent, handlerStepOK, msPotential, completionEventCount_append,
                  completionEventCount, completionEventWeight]
    | some e =>
      cases e with
      | badRequest m => simp [validateDecisionAttr, handlerFailDecision, handlerStepOK]
      | internalService m =>
        simp only [validateDecisionAttr]
        exact handlerStepOK_self handler

theorem stepOK_startChildWorkflow (env : HandlerEnv)
    (attr : StartChildWorkflowExecutionDecisionAttributes)
    (handler : DecisionTaskHandler) :
    handlerStepOK handler (handleDecisionStartChildWorkflow env attr handler).2 := by
  simp only [handleDecisionStartChildWorkflow, MS.getExecutionInfo]
  split
  · exact handlerStepOK_self handler
  · rename_i t hres
    cases hv : env.validator.validateStartChildExecutionAttributes
        handler.mutableState.executionInfo.domainID t attr
        handler.mutableState.executionInfo with
    | none =>
      simp only [validateDecisionAttr]
      by_cases hstop : handler.stopProcessing = true
      · simp only [if_pos hstop]; exact handlerStepOK_self handler
      · simp only [if_neg hstop]
        by_cases hblob : List.length attr.input > env.blobSizeErrorLimit
        · simp [failWorkflowIfBlobSizeExceedsLimit, hblob, MS.appendEvent, handlerStepOK,
            msPotential, completionEventCount_append, completionEventCount,
            completionEventWeight]
        · simp [failWorkflowIfBlobSizeExceedsLimit, hblob,
            MS.addStartChildWorkflowExecutionInitiatedEvent, MS.appendEvent,
            handlerStepOK, msPotential, completionEventCount_append, completionEventCount,
            completionEventWeight]
    | some e =>
      cases e with
      | badRequest m => simp [validateDecisionAttr, handlerFailDecision, handlerStepOK]
      | internalService m =>
        simp only [validateDecisionAttr]
        exact handlerStepOK_self handler

theorem stepOK_requestCancelExternal (env : HandlerEnv)
    (attr : RequestCancelExternalWorkflowExecutionDecisionAttributes)
    (handler : DecisionTaskHandler) :
    handlerStepOK handler (handleDecisionRequestCancelExternalWorkflow env attr handler).2 := by
  simp only [handleDecisionRequestCancelExternalWorkflow, MS.getExecutionInfo]
  split
  · exact handlerStepOK_self handler
  · rename_i t hres
    cases hv : env.validator.validateCancelExternalWorkflowExecutionAttributes
        handler.mutableState.executionInfo.domainID t attr with
    | none =>
      simp only [validateDecisionAttr]
      by_cases hstop : handler.stopProcessing = true
      · simp only [if_pos hstop]; exact handlerStepOK_self handler
      · simp [if_neg hstop,
          MS.addRequestCancelExternalWorkflowExecutionInitiatedEvent, MS.appendEvent,
          handlerStepOK, msPotential, completionEventCount_append, completionEventCount,
          completionEventWeight]
    | some e =>
      cases e with
      | badRequest m => simp [validateDecisionAttr, handlerFailDecision, handlerStepOK]
      | internalService m =>
        simp only [validateDecisionAttr]
        exact handlerStepOK_self handler

theorem stepOK_signalExternal (env : HandlerEnv)
    (attr : SignalExternalWorkflowExecutionDecisionAttributes)
    (handler : DecisionTaskHandler) :
    handlerStepOK handler (handleDecisionSignalExternalWorkflow env attr handler).2 := by
  simp only [handleDecisionSignalExternalWorkflow, MS.getExecutionInfo]
  split
  · exact handlerStepOK_self handler
  · rename_i t hres
    cases hv : env.validator.validateSignalExternalWorkflowExecutionAttributes
        handler.mutableState.executionInfo.domainID t attr with
    | none =>
      simp only [validateDecisionAttr]
      by_cases hstop : handler.stopProcessing = true
      · simp only [if_pos hstop]; exact handlerStepOK_self handler
      · simp only [if_neg hstop]
        by_cases hblob : List.length attr.input > env.blobSizeErrorLimit
        · simp [failWorkflowIfBlobSizeExceedsLimit, hblob, MS.appendEvent, handlerStepOK,
            msPotential, completionEventCount_append, completionEventCount,
            completionEventWeight]
        · simp [failWorkflowIfBlobSizeExceedsLimit, hblob,
            MS.addSignalExternalWorkflowExecutionInitiatedEvent, MS.appendEvent,
            handlerStepOK, msPotential, completionEventCount_append, completionEventCount,
            completionEventWeight]
    | some e =>
      cases e with
      | badRequest m => simp [validateDecisionAttr, handlerFailDecision, handlerStepOK]
      | internalService m =>
        simp only [validateDecisionAttr]
        exact handlerStepOK_self handler

/-- Every single handler step satisfies the step invariant. -/
theorem handleDecision_stepOK (env : HandlerEnv) (d : Decision)
    (handler : DecisionTaskHandler) :
    handlerStepOK handler (handleDecision env d handler).2 := by
  cases d with
  | scheduleActivityTask attr => exact stepOK_scheduleActivity env attr handler
  | requestCancelActivityTask attr => exact stepOK_requestCancelActivity env attr handler
  | startTimer attr => exact stepOK_startTimer env attr handler
  | cancelTimer attr => exact stepOK_cancelTimer env attr handler
  | completeWorkflowExecution attr => exact stepOK_completeWorkflow env attr handler
  | failWorkflowExecution attr => exact stepOK_failWorkflow env attr handler
  | cancelWorkflowExecution attr => exact stepOK_cancelWorkflow env attr handler
  | recordMarker attr => exact stepOK_recordMarker env attr handler
  | continueAsNewWorkflowExecution attr => exact stepOK_continueAsNew env attr handler
  | startChildWorkflowExecution attr => exact stepOK_startChildWorkflow env attr handler
  | requestCancelExternalWorkflowExecution attr =>
    exact stepOK_requestCancelExternal env attr handler
  | signalExternalWorkflowExecution attr => exact stepOK_signalExternal env attr handler
  | unknownDecision t => exact handlerStepOK_self handler

/-- The completion/running potential never increases across a whole batch. -/
theorem handleDecisions_potential (env : HandlerEnv) (ds : List Decision) :
    ∀ handler, msPotential (handleDecisions env handler ds).2.mutableState ≤
      msPotential handler.mutableState := by
  induction ds with
  | nil => intro handler; simp [handleDecisions]
  | cons d rest ih =>
    intro handler
    have hstep := handleDecision_stepOK env d handler
    rcases hr : handleDecision env d handler with ⟨e, h2⟩
    rw [hr] at hstep
    simp only [handleDecisions, hr]
    cases e with
    | some err => exact hstep.2.2
    | none =>
      by_cases hsp : h2.stopProcessing = true
      · simp only [if_pos hsp]; exact hstep.2.2
      · simp only [if_neg hsp]
        exact le_trans (ih h2) hstep.2.2

/-- `timerTasks` is never appended to by any handler step, hence unchanged
across a whole batch. -/
theorem handleDecisions_timerTasks (env : HandlerEnv) (ds : List Decision) :
    ∀ handler, (handleDecisions env handler ds).2.timerTasks = handler.timerTasks := by
  induction ds with
  | nil => intro handler; simp [handleDecisions]
  | cons d rest ih =>
    intro handler
    have hstep := handleDecision_stepOK env d handler
    rcases hr : handleDecision env d handler with ⟨e, h2⟩
    rw [hr] at hstep
    simp only [handleDecisions, hr]
    cases e with
    | some err => exact hstep.2.1
    | none =>
      by_cases hsp : h2.stopProcessing = true
      · simp only [if_pos hsp]; exact hstep.2.1
      · simp only [if_neg hsp]
        exact (ih h2).trans hstep.2.1

/-- C6: (a) a batch appends at most one completion-type event
(WorkflowCompleted / WorkflowFailed / WorkflowCanceled / ContinuedAsNew) to
the mutable state, whatever the decisions; and (b) once the workflow is no
longer running, a terminal decision that reaches the multiple-completion
check is silently skipped — the handler only increments the
multiple-completion counter, appends no event, and returns success — shown
for each of the four terminal kinds. -/
theorem C6_at_most_one_completion_event (env : HandlerEnv) :
    (∀ (identity : String) (decisionTaskCompletedID eventStoreVersion : Nat)
        (domainEntry : String) (ms : MS) (decisions : List Decision),
      completionEventCount (handleDecisions env
          (newDecisionTaskHandler identity decisionTaskCompletedID eventStoreVersion
            domainEntry ms) decisions).2.mutableState.events ≤
        completionEventCount ms.events + 1)
    ∧ (∀ (attr : CompleteWorkflowExecutionDecisionAttributes)
        (handler : DecisionTaskHandler),
      handler.hasUnhandledEventsBeforeDecisions = false →
      env.validator.validateCompleteWorkflowExecutionAttributes attr = none →
      handler.stopProcessing = false →
      ¬ attr.result.length > env.blobSizeErrorLimit →
      handler.mutableState.running = false →
      handleDecisionCompleteWorkflow env attr handler =
        (none, { handler with multipleCompletionDecisionsCounter :=
          handler.multipleCompletionDecisionsCounter + 1 }))
    ∧ (∀ (attr : FailWorkflowExecutionDecisionAttributes)
        (handler : DecisionTaskHandler),
      handler.hasUnhandledEventsBeforeDecisions = false →
      env.validator.validateFailWorkflowExecutionAttributes attr = none →
      handler.stopProcessing = false →
      ¬ attr.details.length > env.blobSizeErrorLimit →
      handler.mutableState.running = false →
      handleDecisionFailWorkflow env attr handler =
        (none, { handler with multipleCompletionDecisionsCounter :=
          handler.multipleCompletionDecisionsCounter + 1 }))
    ∧ (∀ (attr : CancelWorkflowExecutionDecisionAttributes)
        (handler : DecisionTaskHandler),
      handler.hasUnhandledEventsBeforeDecisions = false →
      env.validator.validateCancelWorkflowExecutionAttributes attr = none →
      handler.stopProcessing = false →
      handler.mutableState.running = false →
      handleDecisionCancelWorkflow env attr handler =
        (none, { handler with multipleCompletionDecisionsCounter :=
          handler.multipleCompletionDecisionsCounter + 1 }))
    ∧ (∀ (attr : ContinueAsNewWorkflowExecutionDecisionAttributes)
        (handler : DecisionTaskHandler),
      handler.hasUnhandledEventsBeforeDecisions = false →
      env.validator.validateContinueAsNewWorkflowExecutionAttributes attr
        handler.mutableState.executionInfo = none →
      handler.stopProcessing = false →
      ¬ attr.input.length > env.blobSizeErrorLimit →
      handler.mutableState.running = false →
      handleDecisionContinueAsNewWorkflow env attr handler =
        (none, { handler with multipleCompletionDecisionsCounter :=
          handler.multipleCompletionDecisionsCounter + 1 })) := by
  refine ⟨fun identity cid esv de ms decisions => ?_,
    fun attr handler hflag hvalid hstop hblob hrun => ?_,
    fun attr handler hflag hvalid hstop hblob hrun => ?_,
    fun attr handler hflag hvalid hstop hrun => ?_,
    fun attr handler hflag hvalid hstop hblob hrun => ?_⟩
  · have h := handleDecisions_potential env decisions
      (newDecisionTaskHandler identity cid esv de ms)
    simp only [msPotential, newDecisionTaskHandler] at h
    refine le_trans (Nat.le_add_right _ _) (le_trans h ?_)
    split <;> omega
  · simp [handleDecisionCompleteWorkflow, hflag, validateDecisionAttr, hvalid, hstop,
      failWorkflowIfBlobSizeExceedsLimit, hblob, MS.isWorkflowExecutionRunning, hrun]
  · simp [handleDecisionFailWorkflow, hflag, validateDecisionAttr, hvalid, hstop,
      failWorkflowIfBlobSizeExceedsLimit, hblob, MS.isWorkflowExecutionRunning, hrun]
  · simp [handleDecisionCancelWorkflow, hflag, validateDecisionAttr, hvalid, hstop,
      MS.isWorkflowExecutionRunning, hrun]
  · simp [handleDecisionContinueAsNewWorkflow, MS.getExecutionInfo, hflag,
      validateDecisionAttr, hvalid, hstop, failWorkflowIfBlobSizeExceedsLimit, hblob,
      MS.isWorkflowExecutionRunning, hrun]

/-- A closed (no longer running) variant of `testMS`, for the C6 witness. -/
def closedMS : MS := { testMS with running := false }

/-- C6 witness: part (a) at a concrete two-completion batch and part (b) at a
concrete skipped CompleteWorkflow on a closed workflow. -/
theorem C6_at_most_one_completion_event_witness :
    completionEventCount (handleDecisions testEnv
        (newDecisionTaskHandler "worker-1" 4 0 "did-1" testMS)
        [.completeWorkflowExecution { result := [1] },
         .completeWorkflowExecution { result := [2] }]).2.mutableState.events ≤
      completionEventCount testMS.events + 1
    ∧ handleDecisionCompleteWorkflow testEnv { result := [2] }
        (newDecisionTaskHandler "worker-1" 4 0 "did-1" closedMS) =
      (none, { newDecisionTaskHandler "worker-1" 4 0 "did-1" closedMS with
        multipleCompletionDecisionsCounter :=
          (newDecisionTaskHandler "worker-1" 4 0 "did-1"
            closedMS).multipleCompletionDecisionsCounter + 1 }) :=
  ⟨(C6_at_most_one_completion_event testEnv).1 "worker-1" 4 0 "did-1" testMS
      [.completeWorkflowExecution { result := [1] },
       .completeWorkflowExecution { result := [2] }],
   (C6_at_most_one_completion_event testEnv).2.1 { result := [2] }
      (newDecisionTaskHandler "worker-1" 4 0 "did-1" closedMS)
      (by decide) (by decide) (by decide) (by decide) (by decide)⟩

/-- The C7 counterexample run: a successful ScheduleActivity (which appends a
transfer task) followed by a StartTimer whose duplicate id fails the
decision. -/
def c7Run : HandlerResult :=
  handleDecisions testEnv
    (newDecisionTaskHandler "worker-1" 4 0 "did-1" { testMS with timerIDs := ["t9"] })
    [.scheduleActivityTask oversizedScheduleAttr,
     .startTimer { timerId := "t9", startToFireTimeoutSeconds := 5 }]

/-- C7, counterexample: the batch finishes with a fail-decision verdict
(`StartTimerDuplicateID`) while the accumulated `transferTasks` list is NOT
empty — it still holds the activity transfer task appended by the earlier
successful ScheduleActivity decision. -/
theorem C7_counterexample :
    c7Run.2.failDecision = true
    ∧ c7Run.2.failDecisionCause = some DecisionTaskFailedCause.startTimerDuplicateID
    ∧ c7Run.2.transferTasks = [.activityTask "did-1" "tl-a" 5] := by
  decide

/-- C7 (amended): the decision on which the fail-decision verdict is set
appends no transfer task and no timer task itself (tasks appended by earlier
successful decisions of the batch survive in the accumulators), and the
handler's `timerTasks` accumulator stays empty across every batch started
from a fresh handler. -/
theorem C7_fail_decision_appends_no_tasks (env : HandlerEnv) :
    (∀ (d : Decision) (handler : DecisionTaskHandler),
      handler.failDecision = false →
      (handleDecision env d handler).2.failDecision = true →
      (handleDecision env d handler).2.transferTasks = handler.transferTasks
      ∧ (handleDecision env d handler).2.timerTasks = handler.timerTasks)
    ∧ (∀ (identity : String) (decisionTaskCompletedID eventStoreVersion : Nat)
        (domainEntry : String) (ms : MS) (decisions : List Decision),
      (handleDecisions env (newDecisionTaskHandler identity decisionTaskCompletedID
          eventStoreVersion domainEntry ms) decisions).2.timerTasks = []) := by
  constructor
  · intro d handler hbefore hafter
    obtain ⟨hfd, htt, _⟩ := handleDecision_stepOK env d handler
    refine ⟨?_, htt⟩
    rcases hfd with h1 | h1
    · rw [hafter, hbefore] at h1; cases h1
    · exact h1
  · intro identity cid esv de ms decisions
    rw [handleDecisions_timerTasks env decisions]
    rfl

/-- C7 witness: a duplicate-timer StartTimer on a fresh handler fails the
decision and leaves both accumulators as they were (empty). -/
theorem C7_fail_decision_appends_no_tasks_witness :
    (handleDecision testEnv (.startTimer { timerId := "t9", startToFireTimeoutSeconds := 5 })
        (newDecisionTaskHandler "worker-1" 4 0 "did-1"
          { testMS with timerIDs := ["t9"] })).2.transferTasks =
      (newDecisionTaskHandler "worker-1" 4 0 "did-1"
        { testMS with timerIDs := ["t9"] }).transferTasks
    ∧ (handleDecision testEnv
        (.startTimer { timerId := "t9", startToFireTimeoutSeconds := 5 })
        (newDecisionTaskHandler "worker-1" 4 0 "did-1"
          { testMS with timerIDs := ["t9"] })).2.timerTasks =
      (newDecisionTaskHandler "worker-1" 4 0 "did-1"
        { testMS with timerIDs := ["t9"] }).timerTasks :=
  (C7_fail_decision_appends_no_tasks testEnv).1
    (.startTimer { timerId := "t9", startToFireTimeoutSeconds := 5 })
    (newDecisionTaskHandler "worker-1" 4 0 "did-1" { testMS with timerIDs := ["t9"] })
    (by decide) (by decide)

/-- Replace a handler's appended-events list, keeping everything else — the
frame under which two runs differing only in their uuid streams are
compared. -/
def DecisionTaskHandler.withEvents (h : DecisionTaskHandler) (l : List HistoryEvent) :
    DecisionTaskHandler :=
  { h with mutableState := { h.mutableState with events := l } }

/-- Two handler results agree up to the freshly drawn request ids: equal
returned errors and equal handlers once the request ids are erased from the
appended events. -/
def SimResult (r1 r2 : HandlerResult) : Prop :=
  r1.1 = r2.1 ∧ r1.2.scrubRequestIDs = r2.2.scrubRequestIDs

theorem scrub_withEvents (h : DecisionTaskHandler) (l : List HistoryEvent) :
    (h.withEvents l).scrubRequestIDs = h.withEvents (l.map eraseRequestID) := rfl

theorem withEvents_self (h : DecisionTaskHandler) :
    h.withEvents h.mutableState.events = h := rfl

/-- A scrub-equality between two handlers decomposes into: the second is the
first with its events replaced, and the two event lists agree after erasing
request ids. -/
theorem scrubEq_decompose (h1 h2 : DecisionTaskHandler)
    (hs : h1.scrubRequestIDs = h2.scrubRequestIDs) :
    h2 = h1.withEvents h2.mutableState.events
    ∧ h2.mutableState.events.map eraseRequestID =
        h1.mutableState.events.map eraseRequestID := by
  cases h1 with
  | mk i1 c1 e1 d1 hu1 tb1 tt1 tk1 fd1 fc1 fm1 an1 cb1 sp1 ms1 mc1 uc1 =>
  cases h2 with
  | mk i2 c2 e2 d2 hu2 tb2 tt2 tk2 fd2 fc2 fm2 an2 cb2 sp2 ms2 mc2 uc2 =>
  cases ms1 with
  | mk ei1 r1 n1 ev1 ai1 ti1 be1 hp1 se1 cbs1 rbs1 =>
  cases ms2 with
  | mk ei2 r2 n2 ev2 ai2 ti2 be2 hp2 se2 cbs2 rbs2 =>
  simp only [DecisionTaskHandler.scrubRequestIDs, DecisionTaskHandler.withEvents,
    DecisionTaskHandler.mk.injEq, MS.mk.injEq] at hs ⊢
  tauto

theorem sim_scheduleActivity (env : HandlerEnv) (g : Nat → String)
    (attr : ScheduleActivityTaskDecisionAttributes) (h : DecisionTaskHandler)
    (l1 l2 : List HistoryEvent)
    (hl : l1.map eraseRequestID = l2.map eraseRequestID) :
    SimResult (handleDecisionScheduleActivity env attr (h.withEvents l1))
      (handleDecisionScheduleActivity { env with uuidGen := g } attr
        (h.withEvents l2)) := by
  simp only [handleDecisionScheduleActivity, MS.getExecutionInfo,
    DecisionTaskHandler.withEvents]
  cases hres : resolveTargetDomainID env h.mutableState.executionInfo.domainID attr.domain
      ("Unable to schedule activity across domain " ++ attr.domain ++ ".") with
  | error e =>
    simp only [resolveTargetDomainID] at hres ⊢
    simp [hres, SimResult, DecisionTaskHandler.scrubRequestIDs, hl]
  | ok t =>
    simp only [resolveTargetDomainID] at hres ⊢
    simp only [hres]
    cases hv : env.validator.validateActivityScheduleAttributes
        h.mutableState.executionInfo.domainID t attr
        h.mutableState.executionInfo.workflowTimeout with
    | some e =>
      cases e <;>
        simp [validateDecisionAttr, handlerFailDecision, SimResult,
          DecisionTaskHandler.scrubRequestIDs, hl]
    | none =>
      simp only [validateDecisionAttr]
      by_cases hstop : h.stopProcessing = true
      · simp [hstop, SimResult, DecisionTaskHandler.scrubRequestIDs, hl]
      · simp only [if_neg hstop]
        by_cases hblob : List.length attr.input > env.blobSizeErrorLimit
        · simp [failWorkflowIfBlobSizeExceedsLimit, hblob, MS.appendEvent, SimResult,
            DecisionTaskHandler.scrubRequestIDs, eraseRequestID, hl]
        · by_cases hdup :
              (List.lookup attr.activityId h.mutableState.activityInfos).isSome = true
          · simp [failWorkflowIfBlobSizeExceedsLimit, hblob,
              MS.addActivityTaskScheduledEvent, hdup, handlerFailDecision, SimResult,
              DecisionTaskHandler.scrubRequestIDs, hl]
          · simp [failWorkflowIfBlobSizeExceedsLimit, hblob,
              MS.addActivityTaskScheduledEvent, hdup, MS.appendEvent, SimResult,
              DecisionTaskHandler.scrubRequestIDs, eraseRequestID, hl]

theorem sim_requestCancelActivity (env : HandlerEnv) (g : Nat → String)
    (attr : RequestCancelActivityTaskDecisionAttributes) (h : DecisionTaskHandler)
    (l1 l2 : List HistoryEvent)
    (hl : l1.map eraseRequestID = l2.map eraseRequestID) :
    SimResult (handleDecisionRequestCancelActivity env attr (h.withEvents l1))
      (handleDecisionRequestCancelActivity { env with uuidGen := g } attr
        (h.withEvents l2)) := by
  simp only [handleDecisionRequestCancelActivity, DecisionTaskHandler.withEvents]
  cases hv : env.validator.validateActivityCancelAttributes attr with
  | some e =>
    cases e <;>
      simp [validateDecisionAttr, handlerFailDecision, SimResult,
        DecisionTaskHandler.scrubRequestIDs, hl]
  | none =>
    simp only [validateDecisionAttr]
    by_cases hstop : h.stopProcessing = true
    · simp [hstop, SimResult, DecisionTaskHandler.scrubRequestIDs, hl]
    · simp only [if_neg hstop, MS.addActivityTaskCancelRequestedEvent]
      cases hreq : List.lookup attr.activityId h.mutableState.activityInfos with
      | none =>
        simp [hreq, MS.addRequestCancelActivityTaskFailedEvent, MS.appendEvent,
          SimResult, DecisionTaskHandler.scrubRequestIDs, eraseRequestID, hl]
      | some ai =>
        by_cases hstarted : ai.startedID = emptyEventID
        · simp [hreq, hstarted, MS.addActivityTaskCanceledEvent, MS.appendEvent,
            SimResult, DecisionTaskHandler.scrubRequestIDs, eraseRequestID, hl]
        · simp [hreq, hstarted, MS.appendEvent, SimResult,
            DecisionTaskHandler.scrubRequestIDs, eraseRequestID, hl]

theorem sim_startTimer (env : HandlerEnv) (g : Nat → String)
    (attr : StartTimerDecisionAttributes) (h : DecisionTaskHandler)
    (l1 l2 : List HistoryEvent)
    (hl : l1.map eraseRequestID = l2.map eraseRequestID) :
    SimResult (handleDecisionStartTimer env attr (h.withEvents l1))
      (handleDecisionStartTimer { env with uuidGen := g } attr (h.withEvents l2)) := by
  simp only [handleDecisionStartTimer, DecisionTaskHandler.withEvents]
  cases hv : env.validator.validateTimerScheduleAttributes attr with
  | some e =>
    cases e <;>
      simp [validateDecisionAttr, handlerFailDecision, SimResult,
        DecisionTaskHandler.scrubRequestIDs, hl]
  | none =>
    simp only [validateDecisionAttr]
    by_cases hstop : h.stopProcessing = true
    · simp [hstop, SimResult, DecisionTaskHandler.scrubRequestIDs, hl]
    · simp only [if_neg hstop, MS.addTimerStartedEvent]
      cases hdup : h.mutableState.timerIDs.contains attr.timerId with
      | true =>
        simp [hdup, handlerFailDecision, SimResult,
          DecisionTaskHandler.scrubRequestIDs, hl]
      | false =>
        simp [hdup, MS.appendEvent, SimResult, DecisionTaskHandler.scrubRequestIDs,
          eraseRequestID, hl]

theorem sim_cancelTimer (env : HandlerEnv) (g : Nat → String)
    (attr : CancelTimerDecisionAttributes) (h : DecisionTaskHandler)
    (l1 l2 : List HistoryEvent)
    (hl : l1.map eraseRequestID = l2.map eraseRequestID) :
    SimResult (handleDecisionCancelTimer env attr (h.withEvents l1))
      (handleDecisionCancelTimer { env with uuidGen := g } attr (h.withEvents l2)) := by
  simp only [handleDecisionCancelTimer, DecisionTaskHandler.withEvents]
  cases hv : env.validator.validateTimerCancelAttributes attr with
  | some e =>
    cases e <;>
      simp [validateDecisionAttr, handlerFailDecision, SimResult,
        DecisionTaskHandler.scrubRequestIDs, hl]
  | none =>
    simp only [validateDecisionAttr]
    by_cases hstop : h.stopProcessing = true
    · simp [hstop, SimResult, DecisionTaskHandler.scrubRequestIDs, hl]
    · simp only [if_neg hstop, MS.addTimerCanceledEvent]
      cases hfound : h.mutableState.timerIDs.contains attr.timerId with
      | true =>
        simp [hfound, MS.appendEvent, MS.hasBufferedEvents, SimResult,
          DecisionTaskHandler.scrubRequestIDs, eraseRequestID, hl]
      | false =>
        simp [hfound, MS.addCancelTimerFailedEvent, MS.appendEvent, SimResult,
          DecisionTaskHandler.scrubRequestIDs, eraseRequestID, hl]

theorem sim_completeWorkflow (env : HandlerEnv) (g : Nat → String)
    (attr : CompleteWorkflowExecutionDecisionAttributes) (h : DecisionTaskHandler)
    (l1 l2 : List HistoryEvent)
    (hl : l1.map eraseRequestID = l2.map eraseRequestID) :
    SimResult (handleDecisionCompleteWorkflow env attr (h.withEvents l1))
      (handleDecisionCompleteWorkflow { env with uuidGen := g } attr
        (h.withEvents l2)) := by
  simp only [handleDecisionCompleteWorkflow, DecisionTaskHandler.withEvents]
  by_cases hflag : h.hasUnhandledEventsBeforeDecisions = true
  · simp [hflag, handlerFailDecision, SimResult, DecisionTaskHandler.scrubRequestIDs, hl]
  · simp only [if_neg hflag]
    cases hv : env.validator.validateCompleteWorkflowExecutionAttributes attr with
    | some e =>
      cases e <;>
        simp [validateDecisionAttr, handlerFailDecision, SimResult,
          DecisionTaskHandler.scrubRequestIDs, hl]
    | none =>
      simp only [validateDecisionAttr]
      by_cases hstop : h.stopProcessing = true
      · simp [hstop, SimResult, DecisionTaskHandler.scrubRequestIDs, hl]
      · simp only [if_neg hstop]
        by_cases hblob : List.length attr.result > env.blobSizeErrorLimit
        · simp [failWorkflowIfBlobSizeExceedsLimit, hblob, MS.appendEvent, SimResult,
            DecisionTaskHandler.scrubRequestIDs, eraseRequestID, hl]
        · simp only [failWorkflowIfBlobSizeExceedsLimit, if_neg hblob]
          cases hrun : h.mutableState.running with
          | false =>
            simp [MS.isWorkflowExecutionRunning, hrun, SimResult,
              DecisionTaskHandler.scrubRequestIDs, hl]
          | true =>
            simp only [MS.isWorkflowExecutionRunning, hrun, Bool.not_true,
              Bool.false_eq_true, if_false]
            cases hcron : h.mutableState.cronBackoffSeconds with
            | none =>
              simp [MS.getCronBackoffDuration, hcron, MS.addCompletedWorkflowEvent, hrun,
                MS.appendEvent, SimResult, DecisionTaskHandler.scrubRequestIDs,
                eraseRequestID, hl]
            | some c =>
              cases hstart : h.mutableState.startEvent with
              | none =>
                simp [MS.getCronBackoffDuration, hcron, MS.getStartEvent, hstart,
                  SimResult, DecisionTaskHandler.scrubRequestIDs, hl]
              | some sa =>
                simp [MS.getCronBackoffDuration, hcron, MS.getStartEvent, hstart,
                  retryCronContinueAsNew, MS.addContinueAsNewEvent, hrun, MS.appendEvent,
                  SimResult, DecisionTaskHandler.scrubRequestIDs, eraseRequestID, hl]

theorem sim_failWorkflow (env : HandlerEnv) (g : Nat → String)
    (attr : FailWorkflowExecutionDecisionAttributes) (h : DecisionTaskHandler)
    (l1 l2 : List HistoryEvent)
    (hl : l1.map eraseRequestID = l2.map eraseRequestID) :
    SimResult (handleDecisionFailWorkflow env attr (h.withEvents l1))
      (handleDecisionFailWorkflow { env with uuidGen := g } attr (h.withEvents l2)) := by
  simp only [handleDecisionFailWorkflow, DecisionTaskHandler.withEvents]
  by_cases hflag : h.hasUnhandledEventsBeforeDecisions = true
  · simp [hflag, handlerFailDecision, SimResult, DecisionTaskHandler.scrubRequestIDs, hl]
  · simp only [if_neg hflag]
    cases hv : env.validator.validateFailWorkflowExecutionAttributes attr with
    | some e =>
      cases e <;>
        simp [validateDecisionAttr, handlerFailDecision, SimResult,
          DecisionTaskHandler.scrubRequestIDs, hl]
    | none =>
      simp only [validateDecisionAttr]
      by_cases hstop : h.stopProcessing = true
      · simp [hstop, SimResult, DecisionTaskHandler.scrubRequestIDs, hl]
      · simp only [if_neg hstop]
        by_cases hblob : List.length attr.details > env.blobSizeErrorLimit
        · simp [failWorkflowIfBlobSizeExceedsLimit, hblob, MS.appendEvent, SimResult,
            DecisionTaskHandler.scrubRequestIDs, eraseRequestID, hl]
        · simp only [failWorkflowIfBlobSizeExceedsLimit, if_neg hblob]
          cases hrun : h.mutableState.running with
          | false =>
            simp [MS.isWorkflowExecutionRunning, hrun, SimResult,
              DecisionTaskHandler.scrubRequestIDs, hl]
          | true =>
            simp only [MS.isWorkflowExecutionRunning, hrun, Bool.not_true,
              Bool.false_eq_true, if_false, MS.getRetryBackoffDuration,
              MS.getCronBackoffDuration, MS.getStartEvent]
            cases hretry :
                List.lookup (attr.reason.getD "") h.mutableState.retryBackoffSeconds with
            | none =>
              cases hcron : h.mutableState.cronBackoffSeconds with
              | none =>
                simp [hretry, hcron, MS.addFailWorkflowEvent, hrun, MS.appendEvent,
                  SimResult, DecisionTaskHandler.scrubRequestIDs, eraseRequestID, hl]
              | some c =>
                cases hstart : h.mutableState.startEvent with
                | none =>
                  simp [hretry, hcron, hstart, SimResult,
                    DecisionTaskHandler.scrubRequestIDs, hl]
                | some sa =>
                  simp [hretry, hcron, hstart, retryCronContinueAsNew,
                    MS.addContinueAsNewEvent, hrun, MS.appendEvent, SimResult,
                    DecisionTaskHandler.scrubRequestIDs, eraseRequestID, hl]
            | some b =>
              cases hstart : h.mutableState.startEvent with
              | none =>
                simp [hretry, hstart, SimResult,
                  DecisionTaskHandler.scrubRequestIDs, hl]
              | some sa =>
                simp [hretry, hstart, retryCronContinueAsNew,
                  MS.addContinueAsNewEvent, hrun, MS.appendEvent, SimResult,
                  DecisionTaskHandler.scrubRequestIDs, eraseRequestID, hl]

theorem sim_cancelWorkflow (env : HandlerEnv) (g : Nat → String)
    (attr : CancelWorkflowExecutionDecisionAttributes) (h : DecisionTaskHandler)
    (l1 l2 : List HistoryEvent)
    (hl : l1.map eraseRequestID = l2.map eraseRequestID) :
    SimResult (handleDecisionCancelWorkflow env attr (h.withEvents l1))
      (handleDecisionCancelWorkflow { env with uuidGen := g } attr (h.withEvents l2)) := by
  simp only [handleDecisionCancelWorkflow, DecisionTaskHandler.withEvents]
  by_cases hflag : h.hasUnhandledEventsBeforeDecisions = true
  · simp [hflag, handlerFailDecision, SimResult, DecisionTaskHandler.scrubRequestIDs, hl]
  · simp only [if_neg hflag]
    cases hv : env.validator.validateCancelWorkflowExecutionAttributes attr with
    | some e =>
      cases e <;>
        simp [validateDecisionAttr, handlerFailDecision, SimResult,
          DecisionTaskHandler.scrubRequestIDs, hl]
    | none =>
      simp only [validateDecisionAttr]
      by_cases hstop : h.stopProcessing = true
      · simp [hstop, SimResult, DecisionTaskHandler.scrubRequestIDs, hl]
      · simp only [if_neg hstop]
        cases hrun : h.mutableState.running with
        | false =>
          simp [MS.isWorkflowExecutionRunning, hrun, SimResult,
            DecisionTaskHandler.scrubRequestIDs, hl]
        | true =>
          simp [MS.isWorkflowExecutionRunning, hrun,
            MS.addWorkflowExecutionCanceledEvent, MS.appendEvent, SimResult,
            DecisionTaskHandler.scrubRequestIDs, eraseRequestID, hl]

theorem sim_recordMarker (env : HandlerEnv) (g : Nat → String)
    (attr : RecordMarkerDecisionAttributes) (h : DecisionTaskHandler)
    (l1 l2 : List HistoryEvent)
    (hl : l1.map eraseRequestID = l2.map eraseRequestID) :
    SimResult (handleDecisionRecordMarker env attr (h.withEvents l1))
      (handleDecisionRecordMarker { env with uuidGen := g } attr (h.withEvents l2)) := by
  simp only [handleDecisionRecordMarker, DecisionTaskHandler.withEvents]
  cases hv : env.validator.validateRecordMarkerAttributes attr with
  | some e =>
    cases e <;>
      simp [validateDecisionAttr, handlerFailDecision, SimResult,
        DecisionTaskHandler.scrubRequestIDs, hl]
  | none =>
    simp only [validateDecisionAttr]
    by_cases hstop : h.stopProcessing = true
    · simp [hstop, SimResult, DecisionTaskHandler.scrubRequestIDs, hl]
    · simp only [if_neg hstop]
      by_cases hblob : List.length attr.details > env.blobSizeErrorLimit
      · simp [failWorkflowIfBlobSizeExceedsLimit, hblob, MS.appendEvent, SimResult,
          DecisionTaskHandler.scrubRequestIDs, eraseRequestID, hl]
      · simp [failWorkflowIfBlobSizeExceedsLimit, hblob, MS.addRecordMarkerEvent,
          MS.appendEvent, SimResult, DecisionTaskHandler.scrubRequestIDs,
          eraseRequestID, hl]

theorem sim_continueAsNew (env : HandlerEnv) (g : Nat → String)
    (attr : ContinueAsNewWorkflowExecutionDecisionAttributes) (h : DecisionTaskHandler)
    (l1 l2 : List HistoryEvent)
    (hl : l1.map eraseRequestID = l2.map eraseRequestID) :
    SimResult (handleDecisionContinueAsNewWorkflow env attr (h.withEvents l1))
      (handleDecisionContinueAsNewWorkflow { env with uuidGen := g } attr
        (h.withEvents l2)) := by
  simp only [handleDecisionContinueAsNewWorkflow, MS.getExecutionInfo,
    DecisionTaskHandler.withEvents]
  by_cases hflag : h.hasUnhandledEventsBeforeDecisions = true
  · simp [hflag, handlerFailDecision, SimResult, DecisionTaskHandler.scrubRequestIDs, hl]
  · simp only [if_neg hflag]
    cases hv : env.validator.validateContinueAsNewWorkflowExecutionAttributes attr
        h.mutableState.executionInfo with
    | some e =>
      cases e <;>
        simp [validateDecisionAttr, handlerFailDecision, SimResult,
          DecisionTaskHandler.scrubRequestIDs, hl]
    | none =>
      simp only [validateDecisionAttr]
      by_cases hstop : h.stopProcessing = true
      · simp [hstop, SimResult, DecisionTaskHandler.scrubRequestIDs, hl]
      · simp only [if_neg hstop]
        by_cases hblob : List.length attr.input > env.blobSizeErrorLimit
        · simp [failWorkflowIfBlobSizeExceedsLimit, hblob, MS.appendEvent, SimResult,
            DecisionTaskHandler.scrubRequestIDs, eraseRequestID, hl]
        · simp only [failWorkflowIfBlobSizeExceedsLimit, if_neg hblob]
          cases hrun : h.mutableState.running with
          | false =>
            simp [MS.isWorkflowExecutionRunning, hrun, SimResult,
              DecisionTaskHandler.scrubRequestIDs, hl]
          | true =>
            simp only [MS.isWorkflowExecutionRunning, hrun, Bool.not_true,
              Bool.false_eq_true, if_false, MS.hasParentExecution]
            cases hpar : h.mutableState.hasParentExecutionFlag with
            | false =>
              simp [hpar, MS.addContinueAsNewEvent, hrun, MS.appendEvent, SimResult,
                DecisionTaskHandler.scrubRequestIDs, eraseRequestID, hl]
            | true =>
              cases hdc : env.domainCache.getDomainByID
                  h.mutableState.executionInfo.parentDomainID with
              | none =>
                simp [hpar, hdc, SimResult, DecisionTaskHandler.scrubRequestIDs, hl]
              | some entry =>
                simp [hpar, hdc, MS.addContinueAsNewEvent, hrun, MS.appendEvent,
                  SimResult, DecisionTaskHandler.scrubRequestIDs, eraseRequestID, hl]

theorem sim_startChildWorkflow (env : HandlerEnv) (g : Nat → String)
    (attr : StartChildWorkflowExecutionDecisionAttributes) (h : DecisionTaskHandler)
    (l1 l2 : List HistoryEvent)
    (hl : l1.map eraseRequestID = l2.map eraseRequestID) :
    SimResult (handleDecisionStartChildWorkflow env attr (h.withEvents l1))
      (handleDecisionStartChildWorkflow { env with uuidGen := g } attr
        (h.withEvents l2)) := by
  simp only [handleDecisionStartChildWorkflow, MS.getExecutionInfo,
    DecisionTaskHandler.withEvents]
  cases hres : resolveTargetDomainID env h.mutableState.executionInfo.domainID attr.domain
      ("Unable to schedule child execution across domain " ++ attr.domain ++ ".") with
  | error e =>
    simp only [resolveTargetDomainID] at hres ⊢
    simp [hres, SimResult, DecisionTaskHandler.scrubRequestIDs, hl]
  | ok t =>
    simp only [resolveTargetDomainID] at hres ⊢
    simp only [hres]
    cases hv : env.validator.validateStartChildExecutionAttributes
        h.mutableState.executionInfo.domainID t attr h.mutableState.executionInfo with
    | some e =>
      cases e <;>
        simp [validateDecisionAttr, handlerFailDecision, SimResult,
          DecisionTaskHandler.scrubRequestIDs, hl]
    | none =>
      simp only [validateDecisionAttr]
      by_cases hstop : h.stopProcessing = true
      · simp [hstop, SimResult, DecisionTaskHandler.scrubRequestIDs, hl]
      · simp only [if_neg hstop]
        by_cases hblob : List.length attr.input > env.blobSizeErrorLimit
        · simp [failWorkflowIfBlobSizeExceedsLimit, hblob, MS.appendEvent, SimResult,
            DecisionTaskHandler.scrubRequestIDs, eraseRequestID, hl]
        · simp [failWorkflowIfBlobSizeExceedsLimit, hblob,
            MS.addStartChildWorkflowExecutionInitiatedEvent, MS.appendEvent, SimResult,
            DecisionTaskHandler.scrubRequestIDs, eraseRequestID, hl]

theorem sim_requestCancelExternal (env : HandlerEnv) (g : Nat → String)
    (attr : RequestCancelExternalWorkflowExecutionDecisionAttributes)
    (h : DecisionTaskHandler) (l1 l2 : List HistoryEvent)
    (hl : l1.map eraseRequestID = l2.map eraseRequestID) :
    SimResult (handleDecisionRequestCancelExternalWorkflow env attr (h.withEvents l1))
      (handleDecisionRequestCancelExternalWorkflow { env with uuidGen := g } attr
        (h.withEvents l2)) := by
  simp only [handleDecisionRequestCancelExternalWorkflow, MS.getExecutionInfo,
    DecisionTaskHandler.withEvents]
  cases hres : resolveTargetDomainID env h.mutableState.executionInfo.domainID attr.domain
      ("Unable to cancel workflow across domain: " ++ attr.domain ++ ".") with
  | error e =>
    simp only [resolveTargetDomainID] at hres ⊢
    simp [hres, SimResult, DecisionTaskHandler.scrubRequestIDs, hl]
  | ok t =>
    simp only [resolveTargetDomainID] at hres ⊢
    simp only [hres]
    cases hv : env.validator.validateCancelExternalWorkflowExecutionAttributes
        h.mutableState.executionInfo.domainID t attr with
    | some e =>
      cases e <;>
        simp [validateDecisionAttr, handlerFailDecision, SimResult,
          DecisionTaskHandler.scrubRequestIDs, hl]
    | none =>
      simp only [validateDecisionAttr]
      by_cases hstop : h.stopProcessing = true
      · simp [hstop, SimResult, DecisionTaskHandler.scrubRequestIDs, hl]
      · simp [if_neg hstop, MS.addRequestCancelExternalWorkflowExecutionInitiatedEvent,
          MS.appendEvent, SimResult, DecisionTaskHandler.scrubRequestIDs,
          eraseRequestID, hl]

theorem sim_signalExternal (env : HandlerEnv) (g : Nat → String)
    (attr : SignalExternalWorkflowExecutionDecisionAttributes)
    (h : DecisionTaskHandler) (l1 l2 : List HistoryEvent)
    (hl : l1.map eraseRequestID = l2.map eraseRequestID) :
    SimResult (handleDecisionSignalExternalWorkflow env attr (h.withEvents l1))
      (handleDecisionSignalExternalWorkflow { env with uuidGen := g } attr
        (h.withEvents l2)) := by
  simp only [handleDecisionSignalExternalWorkflow, MS.getExecutionInfo,
    DecisionTaskHandler.withEvents]
  cases hres : resolveTargetDomainID env h.mutableState.executionInfo.domainID attr.domain
      ("Unable to signal workflow across domain: " ++ attr.domain ++ ".") with
  | error e =>
    simp only [resolveTargetDomainID] at hres ⊢
    simp [hres, SimResult, DecisionTaskHandler.scrubRequestIDs, hl]
  | ok t =>
    simp only [resolveTargetDomainID] at hres ⊢
    simp only [hres]
    cases hv : env.validator.validateSignalExternalWorkflowExecutionAttributes
        h.mutableState.executionInfo.domainID t attr with
    | some e =>
      cases e <;>
        simp [validateDecisionAttr, handlerFailDecision, SimResult,
          DecisionTaskHandler.scrubRequestIDs, hl]
    | none =>
      simp only [validateDecisionAttr]
      by_cases hstop : h.stopProcessing = true
      · simp [hstop, SimResult, DecisionTaskHandler.scrubRequestIDs, hl]
      · simp only [if_neg hstop]
        by_cases hblob : List.length attr.input > env.blobSizeErrorLimit
        · simp [failWorkflowIfBlobSizeExceedsLimit, hblob, MS.appendEvent, SimResult,
            DecisionTaskHandler.scrubRequestIDs, eraseRequestID, hl]
        · simp [failWorkflowIfBlobSizeExceedsLimit, hblob,
            MS.addSignalExternalWorkflowExecutionInitiatedEvent, MS.appendEvent,
            SimResult, DecisionTaskHandler.scrubRequestIDs, eraseRequestID, hl]

/-- Every single handler step is deterministic up to the freshly drawn
request ids: two runs of the same decision on scrub-equivalent handlers under
environments differing only in their uuid stream return the same error and
scrub-equivalent handlers. -/
theorem handleDecision_uuid_sim (env : HandlerEnv) (g : Nat → String) (d : Decision)
    (h : DecisionTaskHandler) (l1 l2 : List HistoryEvent)
    (hl : l1.map eraseRequestID = l2.map eraseRequestID) :
    SimResult (handleDecision env d (h.withEvents l1))
      (handleDecision { env with uuidGen := g } d (h.withEvents l2)) := by
  cases d with
  | scheduleActivityTask attr => exact sim_scheduleActivity env g attr h l1 l2 hl
  | requestCancelActivityTask attr => exact sim_requestCancelActivity env g attr h l1 l2 hl
  | startTimer attr => exact sim_startTimer env g attr h l1 l2 hl
  | cancelTimer attr => exact sim_cancelTimer env g attr h l1 l2 hl
  | completeWorkflowExecution attr => exact sim_completeWorkflow env g attr h l1 l2 hl
  | failWorkflowExecution attr => exact sim_failWorkflow env g attr h l1 l2 hl
  | cancelWorkflowExecution attr => exact sim_cancelWorkflow env g attr h l1 l2 hl
  | recordMarker attr => exact sim_recordMarker env g attr h l1 l2 hl
  | continueAsNewWorkflowExecution attr => exact sim_continueAsNew env g attr h l1 l2 hl
  | startChildWorkflowExecution attr => exact sim_startChildWorkflow env g attr h l1 l2 hl
  | requestCancelExternalWorkflowExecution attr =>
    exact sim_requestCancelExternal env g attr h l1 l2 hl
  | signalExternalWorkflowExecution attr => exact sim_signalExternal env g attr h l1 l2 hl
  | unknownDecision t =>
    exact ⟨rfl, by
      simp [handleDecision, DecisionTaskHandler.scrubRequestIDs,
        DecisionTaskHandler.withEvents, hl]⟩

/-- Whole batches are deterministic up to the freshly drawn request ids. -/
theorem handleDecisions_uuid_sim (env : HandlerEnv) (g : Nat → String)
    (ds : List Decision) :
    ∀ (h : DecisionTaskHandler) (l1 l2 : List HistoryEvent),
      l1.map eraseRequestID = l2.map eraseRequestID →
      SimResult (handleDecisions env (h.withEvents l1) ds)
        (handleDecisions { env with uuidGen := g } (h.withEvents l2) ds) := by
  induction ds with
  | nil =>
    intro h l1 l2 hl
    exact ⟨rfl, by
      simp [DecisionTaskHandler.scrubRequestIDs, DecisionTaskHandler.withEvents,
        handleDecisions, hl]⟩
  | cons d rest ih =>
    intro h l1 l2 hl
    obtain ⟨he, hsc⟩ := handleDecision_uuid_sim env g d h l1 l2 hl
    rcases hr1 : handleDecision env d (h.withEvents l1) with ⟨e1, h1x⟩
    rcases hr2 : handleDecision { env with uuidGen := g } d (h.withEvents l2) with ⟨e2, h2x⟩
    rw [hr1, hr2] at he hsc
    simp only at he hsc
    simp only [handleDecisions, hr1, hr2]
    cases e1 with
    | some err =>
      cases e2 with
      | none => cases he
      | some err2 => cases he; exact ⟨rfl, hsc⟩
    | none =>
      cases e2 with
      | some err2 => cases he
      | none =>
        have hsp := congrArg DecisionTaskHandler.stopProcessing hsc
        simp only [DecisionTaskHandler.scrubRequestIDs] at hsp
        show SimResult
          (if h1x.stopProcessing = true then (none, h1x) else handleDecisions env h1x rest)
          (if h2x.stopProcessing = true then (none, h2x)
           else handleDecisions { env with uuidGen := g } h2x rest)
        by_cases hsp1 : h1x.stopProcessing = true
        · rw [if_pos hsp1, if_pos (hsp ▸ hsp1)]
          exact ⟨rfl, hsc⟩
        · rw [if_neg hsp1, if_neg (by rw [← hsp]; exact hsp1)]
          obtain ⟨heq2, herase⟩ := scrubEq_decompose h1x h2x hsc
          have hmain := ih h1x h1x.mutableState.events h2x.mutableState.events herase.symm
          rw [withEvents_self] at hmain
          rw [← heq2] at hmain
          exact hmain

/-- The signal decision used by the C9 counterexample. -/
def c9SignalAttr : SignalExternalWorkflowExecutionDecisionAttributes :=
  { domain := "", execution := { workflowId := "w2", runId := "r2" }, signalName := "s",
    input := [1], childWorkflowOnly := false }

/-- C9, counterexample: two runs of the handler on the same mutable-state
snapshot and the same single-signal batch, differing only in the uuids that
`uuid.New()` returns, append different events — the request id stored in the
`ExternalSignalInitiated` event differs — so the produced outputs are not
identical; erasing the request ids makes the two runs agree, locating the
difference exactly there. -/
theorem C9_counterexample :
    (handleDecisions { testEnv with uuidGen := fun _ => "uuid-a" } testHandler
        [.signalExternalWorkflowExecution c9SignalAttr]).2.mutableState.events ≠
      (handleDecisions { testEnv with uuidGen := fun _ => "uuid-b" } testHandler
        [.signalExternalWorkflowExecution c9SignalAttr]).2.mutableState.events
    ∧ ((handleDecisions { testEnv with uuidGen := fun _ => "uuid-a" } testHandler
        [.signalExternalWorkflowExecution c9SignalAttr]).2.mutableState.events.map
          eraseRequestID =
      (handleDecisions { testEnv with uuidGen := fun _ => "uuid-b" } testHandler
        [.signalExternalWorkflowExecution c9SignalAttr]).2.mutableState.events.map
          eraseRequestID) := by
  constructor
  · decide
  · decide

/-- C9 (amended): the handler is a pure function of `(state snapshot, batch,
uuid stream)`; for a fixed snapshot and batch, two runs whose environments
differ only in the uuid stream backing `uuid.New()` return the same error and
agree on every output — verdict flags, fail-decision cause and message,
accumulated transfer and timer tasks, continue-as-new builder, and the
applied events up to the freshly drawn request ids stored in the
external-cancel, external-signal and start-child initiated events, which are
the only non-deterministic part of the output. -/
theorem C9_deterministic_up_to_request_ids (env : HandlerEnv) (g : Nat → String)
    (identity : String) (decisionTaskCompletedID eventStoreVersion : Nat)
    (domainEntry : String) (ms : MS) (decisions : List Decision) :
    (handleDecisions env
        (newDecisionTaskHandler identity decisionTaskCompletedID eventStoreVersion
          domainEntry ms) decisions).1 =
      (handleDecisions { env with uuidGen := g }
        (newDecisionTaskHandler identity decisionTaskCompletedID eventStoreVersion
          domainEntry ms) decisions).1
    ∧ (handleDecisions env
        (newDecisionTaskHandler identity decisionTaskCompletedID eventStoreVersion
          domainEntry ms) decisions).2.scrubRequestIDs =
      (handleDecisions { env with uuidGen := g }
        (newDecisionTaskHandler identity decisionTaskCompletedID eventStoreVersion
          domainEntry ms) decisions).2.scrubRequestIDs
    ∧ (handleDecisions env
        (newDecisionTaskHandler identity decisionTaskCompletedID eventStoreVersion
          domainEntry ms) decisions).2.transferTasks =
      (handleDecisions { env with uuidGen := g }
        (newDecisionTaskHandler identity decisionTaskCompletedID eventStoreVersion
          domainEntry ms) decisions).2.transferTasks
    ∧ (handleDecisions env
        (newDecisionTaskHandler identity decisionTaskCompletedID eventStoreVersion
          domainEntry ms) decisions).2.timerTasks =
      (handleDecisions { env with uuidGen := g }
        (newDecisionTaskHandler identity decisionTaskCompletedID eventStoreVersion
          domainEntry ms) decisions).2.timerTasks
    ∧ (handleDecisions env
        (newDecisionTaskHandler identity decisionTaskCompletedID eventStoreVersion
          domainEntry ms) decisions).2.continueAsNewBuilder =
      (handleDecisions { env with uuidGen := g }
        (newDecisionTaskHandler identity decisionTaskCompletedID eventStoreVersion
          domainEntry ms) decisions).2.continueAsNewBuilder := by
  have hsim := handleDecisions_uuid_sim env g decisions
    (newDecisionTaskHandler identity decisionTaskCompletedID eventStoreVersion
      domainEntry ms) ms.events ms.events rfl
  have hw : (newDecisionTaskHandler identity decisionTaskCompletedID eventStoreVersion
      domainEntry ms).withEvents ms.events =
      newDecisionTaskHandler identity decisionTaskCompletedID eventStoreVersion
        domainEntry ms := rfl
  rw [hw] at hsim
  obtain ⟨he, hsc⟩ := hsim
  have htt := congrArg DecisionTaskHandler.transferTasks hsc
  have htk := congrArg DecisionTaskHandler.timerTasks hsc
  have hcb := congrArg DecisionTaskHandler.continueAsNewBuilder hsc
  simp only [DecisionTaskHandler.scrubRequestIDs] at htt htk hcb
  exact ⟨he, hsc, htt, htk, hcb⟩

end Cadence
